import Mathlib

/-!
Verification development for the draft-ai editor extension.

The definitions below are a shallow embedding of the extension's core
analysis pipeline, translated from the TypeScript sources:

* `src/types/index.ts` — shared data model (severities, categories, issues);
* `src/services/scanner.ts` — scan orchestrator (file selection, chunking,
  deduplication, health score);
* `src/services/tavily.ts` — OSV dependency-vulnerability mapping;
* the storage service — suppressed-issue persistence;
* the competitor-research service — precondition checks and response parsing;
* the UI-auditor service — score parsing, merge and fallback scoring;
* `src/analyzers/bugs.ts` and `src/analyzers/security.ts` — pattern analyzers.

Embedding conventions: JavaScript strings are Lean `String`s (`slice` is
`String.take`/`String.drop`, `toLowerCase` is `String.toLower`); file-system
and network reads are passed in as explicit arguments; `crypto.randomUUID`
is modelled as an explicit supply `Nat → String` of the 8-character fragments
the code slices from it, indexed in creation order; numbers that the code
only compares and adds are `Int` (CVSS scores, which carry decimals, are `Rat`).
-/

namespace DraftAI

set_option maxRecDepth 16000

/-- Severity of a finding, the `IssueSeverity` union of `src/types/index.ts`. -/
inductive IssueSeverity where
  | critical
  | warning
  | suggestion
  deriving DecidableEq

/-- Category of a code issue, the `IssueCategory` union of `src/types/index.ts`
(`struct` stands for the source's `"structure"` string). -/
inductive IssueCategory where
  | security
  | bugs
  | struct
  | performance
  deriving DecidableEq

/-- The `CodeIssue` record of `src/types/index.ts`. -/
structure CodeIssue where
  id : String
  file : String
  line : Nat
  category : IssueCategory
  severity : IssueSeverity
  title : String
  description : String
  fix : String
  suppressed : Bool
  deriving DecidableEq

/-! ## Health score (`ScannerService.computeHealthScore`) -/

/-- Per-issue penalty, the `switch` of `computeHealthScore` in
`src/services/scanner.ts` lines 283-289. -/
def severityPenalty : IssueSeverity → Int
  | .critical => 15
  | .warning => 5
  | .suggestion => 1

/-- Embedding of `ScannerService.computeHealthScore`
(`src/services/scanner.ts` lines 278-292). -/
def computeHealthScore (issues : List CodeIssue) : Int :=
  let active := issues.filter (fun i => !i.suppressed)
  if active.length = 0 then 100
  else max 0 (100 - active.foldl (fun penalty i => penalty + severityPenalty i.severity) 0)

/-- Number of issues of a given severity in a list. -/
def countSev (l : List CodeIssue) (sev : IssueSeverity) : Nat :=
  (l.filter (fun i => i.severity == sev)).length

/-- Number of active (non-suppressed) issues of a given severity. -/
def activeCount (issues : List CodeIssue) (sev : IssueSeverity) : Nat :=
  countSev (issues.filter (fun i => !i.suppressed)) sev

lemma foldl_penalty_eq (l : List CodeIssue) (a : Int) :
    l.foldl (fun penalty i => penalty + severityPenalty i.severity) a
      = a + 15 * (countSev l IssueSeverity.critical : Int)
          + 5 * (countSev l IssueSeverity.warning : Int)
          + (countSev l IssueSeverity.suggestion : Int) := by
  induction l generalizing a with
  | nil => simp [countSev]
  | cons i t ih =>
      rw [List.foldl_cons, ih]
      rcases h : i.severity with _ | _ | _ <;>
        simp [countSev, List.filter_cons, h, severityPenalty] <;> omega

lemma computeHealthScore_formula (issues : List CodeIssue) :
    computeHealthScore issues
      = max 0 (100 - (15 * (activeCount issues IssueSeverity.critical : Int)
          + 5 * (activeCount issues IssueSeverity.warning : Int)
          + (activeCount issues IssueSeverity.suggestion : Int))) := by
  unfold computeHealthScore activeCount
  by_cases h : (issues.filter (fun i => !i.suppressed)).length = 0
  · rw [if_pos h]
    rw [List.length_eq_zero] at h
    simp [h, countSev]
  · rw [if_neg h, foldl_penalty_eq]
    ring_nf

/-- C1: the health score computed by the scan orchestrator starts at 100 and
subtracts a fixed penalty per active (non-suppressed) finding by severity
(critical 15, heavier than warning 5, heavier than suggestion 1), floored at 0;
it is exactly 100 when there are zero active findings, always lies in [0,100],
and is monotonically non-increasing as the active per-severity counts increase. -/
theorem scan_health_score_claim :
    (∀ issues : List CodeIssue,
      issues.filter (fun i => !i.suppressed) = [] → computeHealthScore issues = 100) ∧
    (∀ issues : List CodeIssue,
      0 ≤ computeHealthScore issues ∧ computeHealthScore issues ≤ 100) ∧
    (∀ issues : List CodeIssue,
      computeHealthScore issues
        = max 0 (100 - (15 * (activeCount issues IssueSeverity.critical : Int)
            + 5 * (activeCount issues IssueSeverity.warning : Int)
            + (activeCount issues IssueSeverity.suggestion : Int)))) ∧
    (severityPenalty IssueSeverity.warning < severityPenalty IssueSeverity.critical ∧
      severityPenalty IssueSeverity.suggestion < severityPenalty IssueSeverity.warning) ∧
    (∀ l₁ l₂ : List CodeIssue,
      activeCount l₁ IssueSeverity.critical ≤ activeCount l₂ IssueSeverity.critical →
      activeCount l₁ IssueSeverity.warning ≤ activeCount l₂ IssueSeverity.warning →
      activeCount l₁ IssueSeverity.suggestion ≤ activeCount l₂ IssueSeverity.suggestion →
      computeHealthScore l₂ ≤ computeHealthScore l₁) := by
  refine ⟨?_, ?_, computeHealthScore_formula, ⟨by decide, by decide⟩, ?_⟩
  · intro issues h
    unfold computeHealthScore
    rw [h]
    rfl
  · intro issues
    rw [computeHealthScore_formula]
    constructor
    · exact le_max_left 0 _
    · apply max_le (by norm_num)
      have h1 : (0 : Int) ≤ 15 * (activeCount issues IssueSeverity.critical : Int)
          + 5 * (activeCount issues IssueSeverity.warning : Int)
          + (activeCount issues IssueSeverity.suggestion : Int) := by positivity
      omega
  · intro l₁ l₂ hc hw hs
    rw [computeHealthScore_formula, computeHealthScore_formula]
    apply max_le (le_max_left 0 _)
    have h2 : (15 * (activeCount l₁ IssueSeverity.critical : Int)
          + 5 * (activeCount l₁ IssueSeverity.warning : Int)
          + (activeCount l₁ IssueSeverity.suggestion : Int))
        ≤ (15 * (activeCount l₂ IssueSeverity.critical : Int)
          + 5 * (activeCount l₂ IssueSeverity.warning : Int)
          + (activeCount l₂ IssueSeverity.suggestion : Int)) := by
      have hc' : (activeCount l₁ IssueSeverity.critical : Int)
          ≤ (activeCount l₂ IssueSeverity.critical : Int) := by exact_mod_cast hc
      have hw' : (activeCount l₁ IssueSeverity.warning : Int)
          ≤ (activeCount l₂ IssueSeverity.warning : Int) := by exact_mod_cast hw
      have hs' : (activeCount l₁ IssueSeverity.suggestion : Int)
          ≤ (activeCount l₂ IssueSeverity.suggestion : Int) := by exact_mod_cast hs
      linarith
    have h3 : (100 : Int) - (15 * (activeCount l₂ IssueSeverity.critical : Int)
          + 5 * (activeCount l₂ IssueSeverity.warning : Int)
          + (activeCount l₂ IssueSeverity.suggestion : Int))
        ≤ 100 - (15 * (activeCount l₁ IssueSeverity.critical : Int)
          + 5 * (activeCount l₁ IssueSeverity.warning : Int)
          + (activeCount l₁ IssueSeverity.suggestion : Int)) := by linarith
    exact le_trans h3 (le_max_right 0 _)

/-- Sample issue used by concrete instantiations. -/
def wIssue : CodeIssue :=
  { id := "i1", file := "a.ts", line := 1, category := IssueCategory.bugs,
    severity := IssueSeverity.critical, title := "t", description := "", fix := "",
    suppressed := false }

theorem scan_health_score_claim_witness :
    computeHealthScore [] = 100 ∧ computeHealthScore [wIssue] ≤ computeHealthScore [] :=
  ⟨scan_health_score_claim.1 [] rfl,
    scan_health_score_claim.2.2.2.2 [] [wIssue] (by decide) (by decide) (by decide)⟩

/-! ## String helpers

Executable models of the JavaScript string operations the sources use,
written over the character list of a `String` so that they evaluate by
definitional unfolding (the corresponding library functions are defined by
well-founded recursion and do not). ASCII behaviour is what matters for
every input considered here. -/

/-- Model of JavaScript `toLowerCase` (ASCII). -/
def strLower (s : String) : String := String.mk (s.data.map Char.toLower)

/-- Model of JavaScript `slice(0, n)` on a string. -/
def strTake (s : String) (n : Nat) : String := String.mk (s.data.take n)

/-- Whitespace as in the JavaScript `\s` class and `trim` (ASCII part). -/
def isJsWs (c : Char) : Bool :=
  (c == ' ') || (c == '\t') || (c == '\n') || (c == '\r') || (c == '\x0b') || (c == '\x0c')

/-- Model of JavaScript `trim`. -/
def strTrim (s : String) : String :=
  String.mk (((s.data.dropWhile isJsWs).reverse.dropWhile isJsWs).reverse)

/-- Model of JavaScript `startsWith`. -/
def strStartsWith (s pre : String) : Bool := pre.data.isPrefixOf s.data

/-- Split a character list at every occurrence of a separator character. -/
def splitCharList (sep : Char) : List Char → List (List Char)
  | [] => [[]]
  | x :: rest =>
    match splitCharList sep rest with
    | [] => [[x]]
    | g :: gs => if x = sep then [] :: g :: gs else (x :: g) :: gs

/-- Model of JavaScript `split(sep)` for a one-character separator. -/
def strSplit (s : String) (sep : Char) : List String :=
  (splitCharList sep s.data).map String.mk

/-! ## Deduplication (`ScannerService.deduplicateIssues`) -/

/-- The deduplication key string built in `deduplicateIssues`
(`src/services/scanner.ts` line 268):
file, line and the lowercased 30-character title prefix joined with colons. -/
def dedupKey (i : CodeIssue) : String :=
  i.file ++ (":") ++ toString i.line ++ (":") ++ strTake (strLower i.title) 30

/-- The (file, line, normalized-title-prefix) triple the specification names
as the deduplication identity key. -/
def tripleKey (i : CodeIssue) : String × Nat × String :=
  (i.file, i.line, strTake (strLower i.title) 30)

/-- Sequential first-wins filtering over a running set of seen keys; the `seen`
set of the source is modelled as a list with membership. -/
def dedupByKey {α : Type} (key : α → String) : List String → List α → List α
  | _, [] => []
  | seen, x :: rest =>
    if key x ∈ seen then dedupByKey key seen rest
    else x :: dedupByKey key (key x :: seen) rest

/-- Embedding of `ScannerService.deduplicateIssues`
(`src/services/scanner.ts` lines 265-273). -/
def deduplicateIssues (issues : List CodeIssue) : List CodeIssue :=
  dedupByKey dedupKey [] issues

lemma dedupByKey_sublist {α : Type} (key : α → String) :
    ∀ (seen : List String) (l : List α), (dedupByKey key seen l).Sublist l := by
  intro seen l
  induction l generalizing seen with
  | nil => simp [dedupByKey]
  | cons x rest ih =>
      by_cases h : key x ∈ seen
      · simp only [dedupByKey, if_pos h]
        exact (ih seen).trans (List.sublist_cons_self x rest)
      · simp only [dedupByKey, if_neg h]
        exact (ih (key x :: seen)).cons₂ x

lemma dedupByKey_keys_not_seen {α : Type} (key : α → String) :
    ∀ (seen : List String) (l : List α) (x : α),
      x ∈ dedupByKey key seen l → key x ∉ seen := by
  intro seen l
  induction l generalizing seen with
  | nil => simp [dedupByKey]
  | cons y rest ih =>
      intro x hx
      by_cases h : key y ∈ seen
      · rw [dedupByKey, if_pos h] at hx
        exact ih seen x hx
      · rw [dedupByKey, if_neg h] at hx
        rcases List.mem_cons.mp hx with hx | hx
        · subst hx; exact h
        · intro hmem
          exact ih (key y :: seen) x hx (List.mem_cons_of_mem _ hmem)

lemma dedupByKey_keys_nodup {α : Type} (key : α → String) :
    ∀ (seen : List String) (l : List α), ((dedupByKey key seen l).map key).Nodup := by
  intro seen l
  induction l generalizing seen with
  | nil => simp [dedupByKey]
  | cons y rest ih =>
      by_cases h : key y ∈ seen
      · rw [dedupByKey, if_pos h]
        exact ih seen
      · rw [dedupByKey, if_neg h]
        refine List.nodup_cons.mpr ⟨?_, ih (key y :: seen)⟩
        intro hmem
        rcases List.mem_map.mp hmem with ⟨x, hx, hkx⟩
        exact dedupByKey_keys_not_seen key _ rest x hx (hkx ▸ List.mem_cons_self _ _)

lemma dedupByKey_covers {α : Type} (key : α → String) :
    ∀ (seen : List String) (l : List α) (x : α), x ∈ l → key x ∉ seen →
      ∃ y ∈ dedupByKey key seen l, key y = key x := by
  intro seen l
  induction l generalizing seen with
  | nil => simp
  | cons y rest ih =>
      intro x hx hns
      by_cases h : key y ∈ seen
      · rw [dedupByKey, if_pos h]
        rcases List.mem_cons.mp hx with hx | hx
        · subst hx; exact absurd h hns
        · exact ih seen x hx hns
      · rw [dedupByKey, if_neg h]
        rcases List.mem_cons.mp hx with hx | hx
        · subst hx
          exact ⟨x, List.mem_cons_self _ _, rfl⟩
        · by_cases hk : key x = key y
          · exact ⟨y, List.mem_cons_self _ _, hk.symm⟩
          · have : key x ∉ key y :: seen := by
              intro hmem
              rcases List.mem_cons.mp hmem with hmem | hmem
              · exact hk hmem
              · exact hns hmem
            rcases ih (key y :: seen) x hx this with ⟨z, hz, hkz⟩
            exact ⟨z, List.mem_cons_of_mem _ hz, hkz⟩

lemma dedupByKey_first {α : Type} (key : α → String) :
    ∀ (pre : List α) (seen : List String) (x : α) (suf : List α),
      key x ∉ seen → (∀ j ∈ pre, key j ≠ key x) →
      x ∈ dedupByKey key seen (pre ++ x :: suf) := by
  intro pre
  induction pre with
  | nil =>
      intro seen x suf hns _
      rw [List.nil_append, dedupByKey, if_neg hns]
      exact List.mem_cons_self _ _
  | cons y rest ih =>
      intro seen x suf hns hpre
      rw [List.cons_append]
      by_cases h : key y ∈ seen
      · rw [dedupByKey, if_pos h]
        exact ih seen x suf hns (fun j hj => hpre j (List.mem_cons_of_mem _ hj))
      · rw [dedupByKey, if_neg h]
        refine List.mem_cons_of_mem _ ?_
        refine ih (key y :: seen) x suf ?_ (fun j hj => hpre j (List.mem_cons_of_mem _ hj))
        intro hmem
        rcases List.mem_cons.mp hmem with hmem | hmem
        · exact hpre y (List.mem_cons_self _ _) hmem.symm
        · exact hns hmem

/-- C2 (amended): deduplication keeps, in order, the first-encountered issue for
each colon-joined key string; hence the output is a sublist of the input (so its
size is bounded by the input size), its key strings are duplicate-free, every
input issue shares its key with some survivor, issues sharing the
(file, line, normalized-title-prefix) triple share the key string (so at most
one of them survives), and an issue survives whenever no earlier issue has its
key string. -/
theorem scan_dedup_claim (issues : List CodeIssue) :
    (deduplicateIssues issues).Sublist issues ∧
    (deduplicateIssues issues).length ≤ issues.length ∧
    ((deduplicateIssues issues).map dedupKey).Nodup ∧
    (∀ i ∈ issues, ∃ j ∈ deduplicateIssues issues, dedupKey j = dedupKey i) ∧
    (∀ i j : CodeIssue, tripleKey i = tripleKey j → dedupKey i = dedupKey j) ∧
    (∀ (pre : List CodeIssue) (i : CodeIssue) (suf : List CodeIssue),
      issues = pre ++ i :: suf → (∀ j ∈ pre, dedupKey j ≠ dedupKey i) →
      i ∈ deduplicateIssues issues) := by
  refine ⟨dedupByKey_sublist dedupKey [] issues,
    (dedupByKey_sublist dedupKey [] issues).length_le, dedupByKey_keys_nodup dedupKey [] issues,
    fun i hi => dedupByKey_covers dedupKey [] issues i hi (List.not_mem_nil _), ?_, ?_⟩
  · intro i j h
    simp only [tripleKey, Prod.mk.injEq] at h
    obtain ⟨h1, h2, h3⟩ := h
    rw [dedupKey, dedupKey, h1, h2, h3]
  · intro pre i suf hEq hpre
    rw [hEq]
    exact dedupByKey_first dedupKey pre [] i suf (List.not_mem_nil _) hpre

theorem scan_dedup_claim_witness :
    wIssue ∈ deduplicateIssues [wIssue] :=
  (scan_dedup_claim [wIssue]).2.2.2.2.2 [] wIssue [] rfl (by simp)

/-- First issue of the C2 counterexample: file name containing a colon. -/
def dupIssueA : CodeIssue :=
  { id := "x1", file := "a:1", line := 2, category := IssueCategory.bugs,
    severity := IssueSeverity.warning, title := "t", description := "", fix := "",
    suppressed := false }

/-- Second issue of the C2 counterexample: a different (file, line, title-prefix)
triple whose colon-joined key string collides with the first issue's. -/
def dupIssueB : CodeIssue :=
  { id := "x2", file := "a", line := 1, category := IssueCategory.bugs,
    severity := IssueSeverity.warning, title := "2:t", description := "", fix := "",
    suppressed := false }

/-- C2 counterexample: `dupIssueB` is the first-encountered (indeed only) finding
with its (file, line, normalized-title-prefix) key, yet it does not survive
deduplication, because the code keys on the colon-joined string, under which it
collides with `dupIssueA`. -/
theorem scan_dedup_counterexample :
    tripleKey dupIssueA ≠ tripleKey dupIssueB ∧
    dedupKey dupIssueA = dedupKey dupIssueB ∧
    deduplicateIssues [dupIssueA, dupIssueB] = [dupIssueA] ∧
    dupIssueB ∉ deduplicateIssues [dupIssueA, dupIssueB] := by
  have h3 : deduplicateIssues [dupIssueA, dupIssueB] = [dupIssueA] := rfl
  refine ⟨?_, rfl, h3, ?_⟩
  · intro h
    have h2 : (2 : Nat) = 1 := congrArg (fun p => p.2.1) h
    exact absurd h2 (by decide)
  · rw [h3]
    intro hmem
    have hid : dupIssueB.id = dupIssueA.id :=
      congrArg CodeIssue.id (List.mem_singleton.mp hmem)
    exact absurd hid (by decide)

/-! ## Suppressed issues (`StorageService.suppressIssue`) -/

/-- Embedding of `StorageService.suppressIssue` acting on the persisted
suppressed-id list (storage service, lines 225-231): append the id only if it
is not already present. -/
def suppressIssue (suppressed : List String) (issueId : String) : List String :=
  if issueId ∈ suppressed then suppressed else suppressed ++ [issueId]

lemma suppressIssue_nodup (l : List String) (i : String) (h : l.Nodup) :
    (suppressIssue l i).Nodup := by
  unfold suppressIssue
  by_cases hm : i ∈ l
  · rwa [if_pos hm]
  · rw [if_neg hm]
    refine List.nodup_append.mpr ⟨h, List.nodup_singleton i, ?_⟩
    intro a ha hb
    rw [List.mem_singleton] at hb
    exact hm (hb ▸ ha)

lemma foldl_suppressIssue_nodup (ids : List String) :
    ∀ l : List String, l.Nodup → (ids.foldl suppressIssue l).Nodup := by
  induction ids with
  | nil => intro l h; simpa using h
  | cons i rest ih =>
      intro l h
      rw [List.foldl_cons]
      exact ih (suppressIssue l i) (suppressIssue_nodup l i h)

/-- C10: suppressing an issue id is idempotent — with an id already present the
stored list is unchanged — the id is present afterwards, suppression preserves
duplicate-freedom, and any sequence of suppressions starting from the default
empty list yields a duplicate-free persisted list. -/
theorem storage_suppress_claim :
    (∀ (l : List String) (i : String), i ∈ l → suppressIssue l i = l) ∧
    (∀ (l : List String) (i : String), i ∈ suppressIssue l i) ∧
    (∀ (l : List String) (i : String), l.Nodup → (suppressIssue l i).Nodup) ∧
    (∀ ids : List String, (ids.foldl suppressIssue []).Nodup) := by
  refine ⟨fun l i h => by rw [suppressIssue, if_pos h], ?_, suppressIssue_nodup,
    fun ids => foldl_suppressIssue_nodup ids [] List.nodup_nil⟩
  intro l i
  unfold suppressIssue
  by_cases hm : i ∈ l
  · rwa [if_pos hm]
  · rw [if_neg hm]
    exact List.mem_append_right l (List.mem_singleton.mpr rfl)

theorem storage_suppress_claim_witness :
    suppressIssue [("a")] ("a") = [("a")] ∧
    (List.foldl suppressIssue [] [("a"), ("b"), ("a")]).Nodup :=
  ⟨storage_suppress_claim.1 [("a")] ("a") (by decide),
    storage_suppress_claim.2.2.2 [("a"), ("b"), ("a")]⟩

/-! ## Git-aware file selection (`ScannerService.runScan` step 1) -/

/-- The `SCANNABLE_EXTENSIONS` set of `src/services/scanner.ts` lines 22-26. -/
def SCANNABLE_EXTENSIONS : List String :=
  [(".ts"), (".tsx"), (".js"), (".jsx"), (".vue"), (".svelte"),
   (".py"), (".rb"), (".go"), (".rs"), (".java"), (".php"),
   (".css"), (".scss"), (".html")]

/-- Index of the last dot in a character list, if any. -/
def lastDotIndex (cs : List Char) : Option Nat :=
  ((cs.enum.filter (fun x => x.2 == '.')).map (fun x => x.1)).getLast?

/-- Model of Node's `path.extname` (POSIX): the suffix of the base name from
its last dot, or the empty string when the base name has no dot or only a
leading dot. -/
def extname (p : String) : String :=
  let base := ((strSplit p '/').getLast?).getD p
  match lastDotIndex base.data with
  | none => ""
  | some 0 => ""
  | some k => String.mk (base.data.drop k)

/-- Embedding of `ScannerService.isScannableFile`
(`src/services/scanner.ts` lines 312-315). -/
def isScannableFile (filePath : String) : Bool :=
  SCANNABLE_EXTENSIONS.contains (extname filePath)

/-- Model of `path.join(workspaceRoot, f)` for the POSIX case. -/
def pathJoin (root f : String) : String := root ++ ("/") ++ f

/-- The changed-file list joined to the root and filtered to scannable
extensions, as on `src/services/scanner.ts` lines 59-61. -/
def changedScannable (root : String) (changed : List String) : List String :=
  (changed.map (fun f => pathJoin root f)).filter isScannableFile

/-- Embedding of `ScannerService.getAllSourceFiles`
(`src/services/scanner.ts` lines 297-310); the glob result of
`vscode.workspace.findFiles` is passed in as `found`. -/
def getAllSourceFiles (found : List String) : List String :=
  found.filter isScannableFile

/-- Embedding of the file-selection step of `ScannerService.runScan`
(`src/services/scanner.ts` lines 55-69). -/
def selectFilesToScan (gitAware isRepo : Bool) (changed found : List String)
    (root : String) : List String :=
  if gitAware && isRepo then
    let filesToScan := changedScannable root changed
    if filesToScan.length = 0 then getAllSourceFiles found else filesToScan
  else getAllSourceFiles found

/-- C4 (amended): in git-aware mode inside a repository, an empty changed-file
list yields the full scannable set; a changed-file list whose intersection with
the scannable extensions is non-empty yields exactly that intersection; but
when the intersection is empty — even for a non-empty changed-file list — the
code falls back to the full scannable set. -/
theorem scan_file_selection_claim (changed found : List String) (root : String) :
    (changed = [] → selectFilesToScan true true changed found root = getAllSourceFiles found) ∧
    (changedScannable root changed ≠ [] →
      selectFilesToScan true true changed found root = changedScannable root changed) ∧
    (changedScannable root changed = [] →
      selectFilesToScan true true changed found root = getAllSourceFiles found) := by
  refine ⟨?_, ?_, ?_⟩
  · intro h
    subst h
    rfl
  · intro h
    unfold selectFilesToScan
    rw [if_pos (show (true && true) = true from rfl),
      if_neg (by simpa [List.length_eq_zero] using h)]
  · intro h
    unfold selectFilesToScan
    rw [if_pos (show (true && true) = true from rfl), if_pos (by simp [h])]

theorem scan_file_selection_claim_witness :
    selectFilesToScan true true [] [("/w/a.ts")] ("/w") = getAllSourceFiles [("/w/a.ts")] ∧
    selectFilesToScan true true [("b.ts")] [("/w/a.ts")] ("/w") = changedScannable ("/w") [("b.ts")] :=
  ⟨(scan_file_selection_claim [] [("/w/a.ts")] ("/w")).1 rfl,
    (scan_file_selection_claim [("b.ts")] [("/w/a.ts")] ("/w")).2.1 (by decide)⟩

/-- C4 counterexample: with a non-empty changed-file list `["README.md"]` whose
intersection with the scannable extensions is empty, the effective scan set is
the full scannable set `["/w/a.ts"]`, not the (empty) intersection. -/
theorem scan_file_selection_counterexample :
    ([("README.md")] : List String) ≠ [] ∧
    changedScannable ("/w") [("README.md")] = [] ∧
    selectFilesToScan true true [("README.md")] [("/w/a.ts")] ("/w") = [("/w/a.ts")] ∧
    selectFilesToScan true true [("README.md")] [("/w/a.ts")] ("/w")
      ≠ changedScannable ("/w") [("README.md")] := by
  refine ⟨by decide, rfl, rfl, by decide⟩

/-! ## UI-audit response parsing (`UIAuditorService.parseAuditResponse`)

JSON parsing is abstracted: a parse function receives `none` when `JSON.parse`
throws (the source's `catch` branch) and otherwise the parsed object as a
record of optional fields, with `Option.getD` modelling the source's `??`
defaulting. Scores are `Int`, which is enough to express every comparison and
clamp the code performs. -/

/-- The finding areas of the `AuditFinding` union (`struct` stands for the
source's `"structure"` string). -/
inductive AuditArea where
  | design
  | accessibility
  | struct
  deriving DecidableEq

/-- The `AuditFinding` record of `src/types/index.ts`. -/
structure AuditFinding where
  area : AuditArea
  title : String
  description : String
  recommendation : String
  severity : IssueSeverity
  file : Option String
  line : Option Nat
  deriving DecidableEq

/-- A finding object as it appears in the parsed AI reply, every field
possibly missing. -/
structure RawAuditFinding where
  area : Option AuditArea
  title : Option String
  description : Option String
  recommendation : Option String
  severity : Option IssueSeverity
  file : Option String
  line : Option Nat

/-- The parsed JSON object an audit reply may carry. -/
structure RawAudit where
  designConsistencyScore : Option Int
  accessibilityScore : Option Int
  structureScore : Option Int
  findings : Option (List RawAuditFinding)

/-- Result shape of `parseAuditResponse`. -/
structure ParsedAudit where
  designConsistencyScore : Int
  accessibilityScore : Int
  structureScore : Int
  findings : List AuditFinding

/-- Embedding of `UIAuditorService.parseAuditResponse` (UI auditor service,
lines 442-476): clamp each score into [0,100] with `min 100 (max 0 _)`,
default missing fields, and return all zeros and no findings on parse
failure. -/
def parseAuditResponse (r : Option RawAudit) : ParsedAudit :=
  match r with
  | none =>
      { designConsistencyScore := 0, accessibilityScore := 0, structureScore := 0,
        findings := [] }
  | some p =>
      { designConsistencyScore := min 100 (max 0 (p.designConsistencyScore.getD 0)),
        accessibilityScore := min 100 (max 0 (p.accessibilityScore.getD 0)),
        structureScore := min 100 (max 0 (p.structureScore.getD 0)),
        findings := (p.findings.getD []).map (fun f =>
          { area := f.area.getD AuditArea.design,
            title := f.title.getD ("Untitled finding"),
            description := f.description.getD (""),
            recommendation := f.recommendation.getD (""),
            severity := f.severity.getD IssueSeverity.suggestion,
            file := f.file, line := f.line }) }

/-! ## Roadmap response parsing (`CompetitorResearchService.parseRoadmapResponse`) -/

/-- Priority union of `RoadmapItem`. -/
inductive RoadmapPriority where
  | high
  | medium
  | low
  deriving DecidableEq

/-- Effort union of `RoadmapItem`. -/
inductive RoadmapEffort where
  | small
  | medium
  | large
  deriving DecidableEq

/-- The `RoadmapItem` record of `src/types/index.ts`. -/
structure RoadmapItemV where
  title : String
  description : String
  priority : RoadmapPriority
  effort : RoadmapEffort
  rationale : String
  deriving DecidableEq

/-- A roadmap item as it appears in the parsed AI reply. -/
structure RawRoadmapItem where
  title : Option String
  description : Option String
  priority : Option RoadmapPriority
  effort : Option RoadmapEffort
  rationale : Option String

/-- The parsed JSON object a roadmap reply may carry. -/
structure RawRoadmap where
  roadmap : Option (List RawRoadmapItem)
  competitiveScore : Option Int

/-- Result shape of `parseRoadmapResponse`. -/
structure RoadmapParsed where
  roadmap : List RoadmapItemV
  competitiveScore : Int

/-- Embedding of `CompetitorResearchService.parseRoadmapResponse`
(competitor-research service, lines 198-217): default missing item fields,
default a missing competitive score to 50 — without clamping — and return an
empty roadmap with score 50 on parse failure. -/
def parseRoadmapResponse (r : Option RawRoadmap) : RoadmapParsed :=
  match r with
  | none => { roadmap := [], competitiveScore := 50 }
  | some p =>
      { roadmap := (p.roadmap.getD []).map (fun it =>
          { title := it.title.getD ("Untitled"),
            description := it.description.getD (""),
            priority := it.priority.getD RoadmapPriority.medium,
            effort := it.effort.getD RoadmapEffort.medium,
            rationale := it.rationale.getD ("") }),
        competitiveScore := p.competitiveScore.getD 50 }

/-- C5 (amended): the three audit scores parsed from an AI reply are clamped
into [0,100] whatever the reply contains, but the competitive score of a
research result is passed through unclamped — it equals the reply's value
when present and defaults to 50 on a missing field or parse failure — so it
lies in [0,100] only when the AI reply's value does. -/
theorem parse_scores_clamp_claim :
    (∀ r : Option RawAudit,
      (0 ≤ (parseAuditResponse r).designConsistencyScore ∧
        (parseAuditResponse r).designConsistencyScore ≤ 100) ∧
      (0 ≤ (parseAuditResponse r).accessibilityScore ∧
        (parseAuditResponse r).accessibilityScore ≤ 100) ∧
      (0 ≤ (parseAuditResponse r).structureScore ∧
        (parseAuditResponse r).structureScore ≤ 100)) ∧
    (∀ r : Option RawRoadmap,
      (parseRoadmapResponse r).competitiveScore
        = (r.bind (fun p => p.competitiveScore)).getD 50) := by
  constructor
  · intro r
    rcases r with _ | p
    · exact ⟨⟨by decide, by decide⟩, ⟨by decide, by decide⟩, ⟨by decide, by decide⟩⟩
    · refine ⟨⟨?_, ?_⟩, ⟨?_, ?_⟩, ⟨?_, ?_⟩⟩ <;>
        · simp only [parseAuditResponse]
          omega
  · intro r
    rcases r with _ | p
    · rfl
    · rfl

/-- The C5 counterexample reply: a roadmap JSON object carrying
`competitiveScore: 150`. -/
def badRoadmapRaw : RawRoadmap := { roadmap := none, competitiveScore := some 150 }

/-- C5 counterexample: an AI reply with `competitiveScore: 150` parses to a
research competitive score of 150, outside [0,100]. -/
theorem parse_scores_clamp_counterexample :
    (parseRoadmapResponse (some badRoadmapRaw)).competitiveScore = 150 ∧
    ¬((parseRoadmapResponse (some badRoadmapRaw)).competitiveScore ≤ 100) :=
  ⟨rfl, by decide⟩

/-! ## Audit finding merge and fallback scores (`UIAuditorService`) -/

/-- Rendering of an audit area as the string interpolated into the merge key. -/
def areaString : AuditArea → String
  | .design => "design"
  | .accessibility => "accessibility"
  | .struct => "structure"

/-- The merge key of `UIAuditorService.mergeFindings` (UI auditor service,
line 510): area and lowercased 40-character title prefix joined with a colon. -/
def auditMergeKey (f : AuditFinding) : String :=
  areaString f.area ++ (":") ++ strTake (strLower f.title) 40

/-- Embedding of `UIAuditorService.mergeFindings` (UI auditor service,
lines 500-515): concatenate local, AI and comparison findings and keep the
first finding for each key. -/
def mergeFindings (localFindings ai comparison : List AuditFinding) : List AuditFinding :=
  dedupByKey auditMergeKey [] (localFindings ++ ai ++ comparison)

/-- Per-finding penalty of `computeScoresFromFindings` (UI auditor service,
lines 528-533): critical 15, warning 8, anything else 3. -/
def auditAreaPenalty : IssueSeverity → Int
  | .critical => 15
  | .warning => 8
  | .suggestion => 3

/-- The three area scores of a `UIAuditResult`. -/
structure AreaScores where
  design : Int
  accessibility : Int
  struct : Int
  deriving DecidableEq

/-- The per-area computation inside `UIAuditorService.computeScoresFromFindings`
(UI auditor service, lines 524-536). -/
def computeAreaScore (findings : List AuditFinding) (area : AuditArea) : Int :=
  let areaFindings := findings.filter (fun f => f.area == area)
  if areaFindings.length = 0 then 75
  else max 0 (100 - areaFindings.foldl (fun p f => p + auditAreaPenalty f.severity) 0)

/-- Embedding of `UIAuditorService.computeScoresFromFindings`
(UI auditor service, lines 519-543). -/
def computeScoresFromFindings (findings : List AuditFinding) : AreaScores :=
  { design := computeAreaScore findings AuditArea.design,
    accessibility := computeAreaScore findings AuditArea.accessibility,
    struct := computeAreaScore findings AuditArea.struct }

/-- Embedding of the score-selection logic of `UIAuditorService.runAudit`
(UI auditor service, lines 75-124): `ai = none` models an AI path that is
not ready or throws (leaving the initial all-zero scores and no AI findings),
`ai = some p` a reply that parsed to `p`; when the scores are all zero the
fallback recomputes them from all merged findings. -/
def runAuditScores (localFindings : List AuditFinding) (ai : Option ParsedAudit)
    (comparison : List AuditFinding) : AreaScores × List AuditFinding :=
  let aiFindings := match ai with
    | none => []
    | some p => p.findings
  let scores0 : AreaScores := match ai with
    | none => { design := 0, accessibility := 0, struct := 0 }
    | some p =>
        { design := p.designConsistencyScore, accessibility := p.accessibilityScore,
          struct := p.structureScore }
  let allFindings := mergeFindings localFindings aiFindings comparison
  let scores :=
    if scores0.design = 0 ∧ scores0.accessibility = 0 ∧ scores0.struct = 0 then
      computeScoresFromFindings allFindings
    else scores0
  (scores, allFindings)

lemma foldl_add_eq_sum {α : Type} (g : α → Int) :
    ∀ (l : List α) (a : Int), l.foldl (fun p x => p + g x) a = a + (l.map g).sum := by
  intro l
  induction l with
  | nil => simp
  | cons x rest ih =>
      intro a
      rw [List.foldl_cons, ih, List.map_cons, List.sum_cons]
      ring

lemma dedupByKey_ne_nil {α : Type} (key : α → String) (x : α) (l : List α) :
    dedupByKey key [] (x :: l) ≠ [] := by
  rw [dedupByKey, if_neg (List.not_mem_nil (key x))]
  exact List.cons_ne_nil x _

/-- C7 (amended): when the AI path fails (`none`) or returns all-zero scores,
the area scores are recomputed from all merged findings — local, AI and
comparison, which is the merged local findings alone exactly when the AI and
comparison sets are empty — via the fallback formula: 75 for an area with zero
findings, otherwise max(0, 100 minus the severity-weighted penalties 15/8/3);
and whenever local findings exist the audit's merged findings list is
non-empty. -/
theorem audit_fallback_scores_claim :
    (∀ localF comp : List AuditFinding,
      runAuditScores localF none comp
        = (computeScoresFromFindings (mergeFindings localF [] comp),
            mergeFindings localF [] comp)) ∧
    (∀ (localF comp : List AuditFinding) (p : ParsedAudit),
      p.designConsistencyScore = 0 → p.accessibilityScore = 0 → p.structureScore = 0 →
      (runAuditScores localF (some p) comp).1
        = computeScoresFromFindings (mergeFindings localF p.findings comp)) ∧
    (∀ (findings : List AuditFinding) (area : AuditArea),
      (findings.filter (fun f => f.area == area) = [] →
        computeAreaScore findings area = 75) ∧
      (findings.filter (fun f => f.area == area) ≠ [] →
        computeAreaScore findings area
          = max 0 (100 - ((findings.filter (fun f => f.area == area)).map
              (fun f => auditAreaPenalty f.severity)).sum))) ∧
    (∀ (localF comp : List AuditFinding) (ai : Option ParsedAudit),
      localF ≠ [] → (runAuditScores localF ai comp).2 ≠ []) := by
  refine ⟨fun localF comp => rfl, ?_, ?_, ?_⟩
  · intro localF comp p h1 h2 h3
    unfold runAuditScores
    simp only [h1, h2, h3]
    rfl
  · intro findings area
    constructor
    · intro h
      unfold computeAreaScore
      rw [h]
      rfl
    · intro h
      unfold computeAreaScore
      rw [if_neg (by simpa [List.length_eq_zero] using h), foldl_add_eq_sum]
      ring_nf
  · intro localF comp ai h
    rcases localF with _ | ⟨x, rest⟩
    · exact absurd rfl h
    · show mergeFindings (x :: rest) _ comp ≠ []
      unfold mergeFindings
      rw [List.cons_append]
      exact dedupByKey_ne_nil auditMergeKey x _

/-- Sample audit finding used by concrete instantiations. -/
def wAuditFinding : AuditFinding :=
  { area := AuditArea.accessibility, title := "Image missing alt text",
    description := "", recommendation := "", severity := IssueSeverity.warning,
    file := some ("App.tsx"), line := some 3 }

theorem audit_fallback_scores_claim_witness :
    (runAuditScores [wAuditFinding] (some (parseAuditResponse none)) []).1
      = computeScoresFromFindings (mergeFindings [wAuditFinding] [] []) ∧
    (runAuditScores [wAuditFinding] none []).2 ≠ [] :=
  ⟨audit_fallback_scores_claim.2.1 [wAuditFinding] [] (parseAuditResponse none) rfl rfl rfl,
    audit_fallback_scores_claim.2.2.2 [wAuditFinding] [] none (by simp)⟩

/-- The C7 counterexample AI reply: no score fields (so the parsed scores are
all zero) together with one critical design finding. -/
def zeroScoreRawAudit : RawAudit :=
  { designConsistencyScore := none, accessibilityScore := none, structureScore := none,
    findings := some [{ area := some AuditArea.design,
                        title := some ("AI design issue"),
                        description := none, recommendation := none,
                        severity := some IssueSeverity.critical,
                        file := none, line := none }] }

/-- C7 counterexample: with no local findings, an AI reply that parses to
all-zero scores but carries one critical design finding makes the fallback
score the design area from the AI finding (100 - 15 = 85), not from the merged
local findings alone (which would give 75). -/
theorem audit_fallback_scores_counterexample :
    (runAuditScores [] (some (parseAuditResponse (some zeroScoreRawAudit))) []).1.design = 85 ∧
    (computeScoresFromFindings (mergeFindings [] [] [])).design = 75 ∧
    ((85 : Int) ≠ 75) :=
  ⟨rfl, rfl, by decide⟩

/-! ## Competitor research preconditions (`CompetitorResearchService.runResearch`) -/

/-- The `CompetitorProfile` record of `src/types/index.ts`. -/
structure CompetitorProfileV where
  name : String
  strengths : List String
  weaknesses : List String
  features : List String
  pricing : Option String
  userSentiment : Option String
  deriving DecidableEq

/-- The `GapAnalysis` record of `src/types/index.ts`. -/
structure GapAnalysisV where
  competitorProfiles : List CompetitorProfileV
  missingFeatures : List String
  opportunities : List String
  threats : List String
  deriving DecidableEq

/-- A competitor profile as it appears in the parsed AI reply. -/
structure RawCompetitorProfile where
  name : Option String
  strengths : Option (List String)
  weaknesses : Option (List String)
  features : Option (List String)
  pricing : Option String
  userSentiment : Option String

/-- The parsed JSON object a gap-analysis reply may carry. -/
structure RawGap where
  competitorProfiles : Option (List RawCompetitorProfile)
  missingFeatures : Option (List String)
  opportunities : Option (List String)
  threats : Option (List String)

/-- Embedding of `CompetitorResearchService.parseGapAnalysis`
(competitor-research service, lines 170-193). -/
def parseGapAnalysis (r : Option RawGap) : GapAnalysisV :=
  match r with
  | none =>
      { competitorProfiles := [], missingFeatures := [], opportunities := [], threats := [] }
  | some p =>
      { competitorProfiles := (p.competitorProfiles.getD []).map (fun q =>
          { name := q.name.getD ("Unknown"), strengths := q.strengths.getD [],
            weaknesses := q.weaknesses.getD [], features := q.features.getD [],
            pricing := q.pricing, userSentiment := q.userSentiment }),
        missingFeatures := p.missingFeatures.getD [],
        opportunities := p.opportunities.getD [],
        threats := p.threats.getD [] }

/-- A search hit, the `TavilySearchResult` record of `src/services/tavily.ts`. -/
structure SearchResult where
  title : String
  url : String
  content : String
  score : Int
  deriving DecidableEq

/-- Embedding of `CompetitorResearchService.buildFallbackGapAnalysis`
(competitor-research service, lines 223-239). -/
def buildFallbackGapAnalysis
    (searchResults : List (String × List SearchResult)) : GapAnalysisV :=
  { competitorProfiles := searchResults.map (fun x =>
      { name := x.1, strengths := [], weaknesses := [],
        features := (x.2.take 3).map (fun r => r.title), pricing := none,
        userSentiment := none }),
    missingFeatures := [],
    opportunities := [("AI analysis unavailable — review raw search data manually")],
    threats := [] }

/-- Research depth union. -/
inductive ResearchDepth where
  | surface
  | deep
  deriving DecidableEq

/-- The outward-bound calls `runResearch` can make, one entry per
`tavily.searchCompetitor`, `longcat.lite` and `longcat.chat` invocation. -/
inductive NetCall where
  | searchCompetitor (name : String)
  | liteChat
  | fullChat
  deriving DecidableEq

/-- The three configuration errors `runResearch` can throw, in source order. -/
inductive ResearchErr where
  | noCompetitors
  | noTavilyKey
  | noLongcatKey
  deriving DecidableEq

/-- The message text each error is thrown with (competitor-research service,
lines 37-47). -/
def ResearchErr.message : ResearchErr → String
  | .noCompetitors =>
      "No competitors listed in your project profile. Edit your profile to add competitors."
  | .noTavilyKey => "Tavily API key not set. Add it in Settings to run competitor research."
  | .noLongcatKey => "LongCat API key not set. Add it in Settings for AI-powered analysis."

/-- The environment a research run executes against: credential readiness and
the outcomes of the outward calls (a `none` outcome is a call that throws). -/
structure ResearchEnv where
  tavilyReady : Bool
  longcatReady : Bool
  search : String → Option (List SearchResult)
  gapResponse : Option (Option RawGap)
  roadmapResponse : Option (Option RawRoadmap)

/-- The `CompetitorResearchResult` record (without the wall-clock id and
timestamp fields). -/
structure ResearchResultV where
  depth : ResearchDepth
  gapAnalysis : GapAnalysisV
  roadmap : List RoadmapItemV
  competitiveScore : Int
  deriving DecidableEq

/-- Embedding of `CompetitorResearchService.runResearch`
(competitor-research service, lines 29-140), returning the result or the
thrown configuration error together with the list of outward calls made. -/
def runResearch (competitors : List String) (depth : ResearchDepth)
    (env : ResearchEnv) : Except ResearchErr ResearchResultV × List NetCall :=
  if competitors.length = 0 then (Except.error ResearchErr.noCompetitors, [])
  else if !env.tavilyReady then (Except.error ResearchErr.noTavilyKey, [])
  else if !env.longcatReady then (Except.error ResearchErr.noLongcatKey, [])
  else
    let allSearchResults := competitors.map (fun name => (name, (env.search name).getD []))
    let gapAnalysis := match env.gapResponse with
      | none => buildFallbackGapAnalysis allSearchResults
      | some raw => parseGapAnalysis raw
    let rp := match env.roadmapResponse with
      | none => ({ roadmap := [], competitiveScore := 50 } : RoadmapParsed)
      | some raw => parseRoadmapResponse raw
    (Except.ok { depth := depth, gapAnalysis := gapAnalysis, roadmap := rp.roadmap,
                 competitiveScore := rp.competitiveScore },
      (competitors.map (fun n => NetCall.searchCompetitor n))
        ++ [NetCall.liteChat, NetCall.fullChat])

/-- C6: `runResearch` checks its preconditions in order with the first failure
winning — competitors present, then the search credential, then the AI
credential — and with zero competitors it fails immediately with the
"no competitors" error having made zero outward calls. -/
theorem research_preconditions_claim (competitors : List String)
    (depth : ResearchDepth) (env : ResearchEnv) :
    (competitors = [] →
      runResearch competitors depth env = (Except.error ResearchErr.noCompetitors, []) ∧
      strStartsWith (ResearchErr.message ResearchErr.noCompetitors) ("No competitors") = true) ∧
    (competitors ≠ [] → env.tavilyReady = false →
      runResearch competitors depth env = (Except.error ResearchErr.noTavilyKey, [])) ∧
    (competitors ≠ [] → env.tavilyReady = true → env.longcatReady = false →
      runResearch competitors depth env = (Except.error ResearchErr.noLongcatKey, [])) := by
  refine ⟨?_, ?_, ?_⟩
  · intro h
    subst h
    exact ⟨rfl, by decide⟩
  · intro h ht
    unfold runResearch
    rw [if_neg (by simpa [List.length_eq_zero] using h), ht]
    rfl
  · intro h ht hl
    unfold runResearch
    rw [if_neg (by simpa [List.length_eq_zero] using h), ht, hl]
    rfl

/-- Sample research environment used by concrete instantiations. -/
def wResearchEnv : ResearchEnv :=
  { tavilyReady := true, longcatReady := true, search := fun _ => none,
    gapResponse := none, roadmapResponse := none }

theorem research_preconditions_claim_witness :
    runResearch [] ResearchDepth.surface wResearchEnv
      = (Except.error ResearchErr.noCompetitors, []) ∧
    runResearch [("X")] ResearchDepth.surface
        { wResearchEnv with tavilyReady := false }
      = (Except.error ResearchErr.noTavilyKey, []) :=
  ⟨((research_preconditions_claim [] ResearchDepth.surface wResearchEnv).1 rfl).1,
    (research_preconditions_claim [("X")] ResearchDepth.surface
      { wResearchEnv with tavilyReady := false }).2.1 (by simp) rfl⟩

/-! ## OSV vulnerability mapping (`OSVService.vulnToIssue`) -/

/-- A range event of an OSV record (`introduced`, optional `fixed`). -/
structure OSVEvent where
  introduced : String
  fixed : Option String
  deriving DecidableEq

/-- A range of an OSV record; `rtype` is the source's `type` field. -/
structure OSVRange where
  rtype : String
  events : List OSVEvent
  deriving DecidableEq

/-- The package an OSV `affected` entry refers to. -/
structure OSVAffectedPackage where
  name : String
  ecosystem : String
  deriving DecidableEq

/-- An `affected` entry of an OSV record; `pkg` is the source's `package`. -/
structure OSVAffected where
  pkg : OSVAffectedPackage
  ranges : List OSVRange
  deriving DecidableEq

/-- A severity entry of an OSV record; `stype` is the source's `type` field and
`score` the numeric value of the CVSS score string (the `parseFloat` the code
applies is abstracted into the rational value). -/
structure OSVSeverityEntry where
  stype : String
  score : Rat
  deriving DecidableEq

/-- The `OSVVulnerability` record of `src/services/tavily.ts` lines 138-148;
`vid` is the source's `id` field. -/
structure OSVVulnerability where
  vid : String
  summary : String
  details : String
  aliases : List String
  severity : List OSVSeverityEntry
  affected : List OSVAffected
  deriving DecidableEq

/-- The numeric severity used by `vulnToIssue` (`src/services/tavily.ts`
lines 267-268): the score of the first `CVSS_V3` entry, or 5 when absent. -/
def osvScore (v : OSVVulnerability) : Rat :=
  ((v.severity.find? (fun s => s.stype == ("CVSS_V3"))).map (fun s => s.score)).getD 5

/-- The severity mapping of `vulnToIssue` (`src/services/tavily.ts`
lines 269-270). -/
def vulnSeverity (v : OSVVulnerability) : IssueSeverity :=
  if 7 ≤ osvScore v then IssueSeverity.critical
  else if 4 ≤ osvScore v then IssueSeverity.warning
  else IssueSeverity.suggestion

/-- JavaScript truthiness of an event's `fixed` field: present and non-empty. -/
def eventHasFixed (e : OSVEvent) : Bool :=
  match e.fixed with
  | some s => s != ""
  | none => false

/-- The flattened event list `affected.flatMap(a => a.ranges).flatMap(r =>
r.events)` of `src/services/tavily.ts` lines 273-275. -/
def flattenedEvents (v : OSVVulnerability) : List OSVEvent :=
  (v.affected.flatMap (fun a => a.ranges)).flatMap (fun r => r.events)

/-- The first available fixed version across all affected ranges
(`src/services/tavily.ts` lines 273-276). -/
def firstFixedVersion (v : OSVVulnerability) : Option String :=
  ((flattenedEvents v).find? eventHasFixed).bind (fun e => e.fixed)

/-- The CVE id picked for display (`src/services/tavily.ts` line 278). -/
def osvCveId (v : OSVVulnerability) : String :=
  (v.aliases.find? (fun a => strStartsWith a ("CVE-"))).getD v.vid

/-- The description fallback chain (`src/services/tavily.ts` line 287). -/
def vulnDescription (v : OSVVulnerability) : String :=
  if v.summary ≠ "" then v.summary
  else if strTake v.details 200 ≠ "" then strTake v.details 200
  else "Known vulnerability in this dependency."

/-- Embedding of `OSVService.vulnToIssue` (`src/services/tavily.ts`
lines 260-293); `uuid` is the random id fragment. -/
def vulnToIssue (pkgName version : String) (v : OSVVulnerability)
    (pkgPath : String) (uuid : String) : CodeIssue :=
  { id := "cve-" ++ osvCveId v ++ "-" ++ uuid,
    file := pkgPath,
    line := 1,
    category := IssueCategory.security,
    severity := vulnSeverity v,
    title := osvCveId v ++ (": ") ++ pkgName ++ ("@") ++ version,
    description := vulnDescription v,
    fix := match firstFixedVersion v with
      | some fv => "Update to " ++ pkgName ++ "@" ++ fv ++ ": npm install "
          ++ pkgName ++ "@" ++ fv ++ " — Details: https://osv.dev/vulnerability/" ++ v.vid
      | none => "Review vulnerability: https://osv.dev/vulnerability/" ++ v.vid,
    suppressed := false }

lemma find?_first {α : Type} (p : α → Bool) :
    ∀ (pre : List α) (x : α) (suf : List α),
      (∀ y ∈ pre, p y = false) → p x = true →
      (pre ++ x :: suf).find? p = some x := by
  intro pre
  induction pre with
  | nil =>
      intro x suf _ hx
      rw [List.nil_append, List.find?_cons, hx]
  | cons y rest ih =>
      intro x suf hpre hx
      rw [List.cons_append, List.find?_cons, hpre y (List.mem_cons_self _ _)]
      exact ih x suf (fun z hz => hpre z (List.mem_cons_of_mem _ hz)) hx

/-- C8: for every vulnerability record, the derived finding is critical when the
numeric severity score is at least 7, warning when it is at least 4 (and below
7), and suggestion otherwise; and the remediation hint uses the first available
fixed version across all affected ranges when one exists, falling back to a
review link otherwise. -/
theorem osv_vuln_to_issue_claim (pkgName version pkgPath uuid : String)
    (v : OSVVulnerability) :
    (7 ≤ osvScore v →
      (vulnToIssue pkgName version v pkgPath uuid).severity = IssueSeverity.critical) ∧
    (4 ≤ osvScore v → osvScore v < 7 →
      (vulnToIssue pkgName version v pkgPath uuid).severity = IssueSeverity.warning) ∧
    (osvScore v < 4 →
      (vulnToIssue pkgName version v pkgPath uuid).severity = IssueSeverity.suggestion) ∧
    (∀ (pre : List OSVEvent) (e : OSVEvent) (suf : List OSVEvent) (fv : String),
      flattenedEvents v = pre ++ e :: suf →
      (∀ y ∈ pre, eventHasFixed y = false) →
      e.fixed = some fv → fv ≠ "" →
      (vulnToIssue pkgName version v pkgPath uuid).fix
        = "Update to " ++ pkgName ++ "@" ++ fv ++ ": npm install "
          ++ pkgName ++ "@" ++ fv ++ " — Details: https://osv.dev/vulnerability/" ++ v.vid) ∧
    ((∀ e ∈ flattenedEvents v, eventHasFixed e = false) →
      (vulnToIssue pkgName version v pkgPath uuid).fix
        = "Review vulnerability: https://osv.dev/vulnerability/" ++ v.vid) := by
  refine ⟨?_, ?_, ?_, ?_, ?_⟩
  · intro h
    show vulnSeverity v = IssueSeverity.critical
    rw [vulnSeverity, if_pos h]
  · intro h4 h7
    show vulnSeverity v = IssueSeverity.warning
    rw [vulnSeverity, if_neg (by linarith), if_pos h4]
  · intro h4
    show vulnSeverity v = IssueSeverity.suggestion
    rw [vulnSeverity, if_neg (by linarith), if_neg (by linarith)]
  · intro pre e suf fv hflat hpre hefv hne
    have he : eventHasFixed e = true := by
      rw [eventHasFixed, hefv]
      exact bne_iff_ne.mpr hne
    have hfind : firstFixedVersion v = some fv := by
      rw [firstFixedVersion, hflat, find?_first eventHasFixed pre e suf hpre he,
        Option.some_bind, hefv]
    show (match firstFixedVersion v with
      | some fv => "Update to " ++ pkgName ++ "@" ++ fv ++ ": npm install "
          ++ pkgName ++ "@" ++ fv ++ " — Details: https://osv.dev/vulnerability/" ++ v.vid
      | none => "Review vulnerability: https://osv.dev/vulnerability/" ++ v.vid) = _
    rw [hfind]
  · intro hall
    have hfind : firstFixedVersion v = none := by
      rw [firstFixedVersion, List.find?_eq_none.mpr (by simpa using hall)]
      rfl
    show (match firstFixedVersion v with
      | some fv => "Update to " ++ pkgName ++ "@" ++ fv ++ ": npm install "
          ++ pkgName ++ "@" ++ fv ++ " — Details: https://osv.dev/vulnerability/" ++ v.vid
      | none => "Review vulnerability: https://osv.dev/vulnerability/" ++ v.vid) = _
    rw [hfind]

/-- Sample OSV record used by concrete instantiations: CVSS 7.5, one fixed
version. -/
def wVuln : OSVVulnerability :=
  { vid := "GHSA-aaaa-bbbb-cccc", summary := "Prototype pollution", details := "",
    aliases := [("CVE-2024-0001")],
    severity := [{ stype := "CVSS_V3", score := 7.5 }],
    affected := [{ pkg := { name := "lodash", ecosystem := "npm" },
                   ranges := [{ rtype := "SEMVER",
                                events := [{ introduced := "0",
                                             fixed := some ("4.17.21") }] }] }] }

theorem osv_vuln_to_issue_claim_witness :
    (vulnToIssue ("lodash") ("4.17.20") wVuln ("package.json") ("abcd1234")).severity
      = IssueSeverity.critical ∧
    (vulnToIssue ("lodash") ("4.17.20") wVuln ("package.json") ("abcd1234")).fix
      = "Update to lodash@4.17.21: npm install lodash@4.17.21 — Details: https://osv.dev/vulnerability/GHSA-aaaa-bbbb-cccc" :=
  ⟨(osv_vuln_to_issue_claim ("lodash") ("4.17.20") ("package.json") ("abcd1234") wVuln).1
      (by norm_num [osvScore, wVuln, List.find?]),
    (osv_vuln_to_issue_claim ("lodash") ("4.17.20") ("package.json") ("abcd1234") wVuln).2.2.2.1
      [] { introduced := "0", fixed := some ("4.17.21") } [] ("4.17.21") rfl
      (by simp) rfl (by simp)⟩

/-! ## Chunk builder (`ScannerService.buildChunks`)

Files are passed in as `(relative path, content)` pairs — the file read is
abstracted away and unreadable files are simply absent from the list. -/

/-- The `MAX_FILE_SIZE` constant of `src/services/scanner.ts` line 16. -/
def MAX_FILE_SIZE : Nat := 100000

/-- The `MAX_CHUNK_TOKENS` constant of `src/services/scanner.ts` line 18. -/
def MAX_CHUNK_TOKENS : Nat := 4000

/-- The `CHARS_PER_TOKEN` constant of `src/services/scanner.ts` line 20. -/
def CHARS_PER_TOKEN : Nat := 4

/-- The per-chunk character budget `maxChars` of `buildChunks`
(`src/services/scanner.ts` line 215). -/
def maxChunkChars : Nat := MAX_CHUNK_TOKENS * CHARS_PER_TOKEN

/-- Embedding of `buildChunkAnalysisPrompt` (`src/prompts/codeHealth.ts`
lines 275-286). -/
def buildChunkAnalysisPrompt (filePath code : String) : String :=
  "## File: " ++ filePath ++ "\n\n```\n" ++ code
    ++ "\n```\n\nAnalyze this file. Return JSON with the issues array as specified in your system instructions."

/-- One iteration of the `for` loop of `buildChunks` (`src/services/scanner.ts`
lines 217-237) over the `(chunks, currentChunk)` state. -/
def chunkStep (acc : List String × String) (f : String × String) : List String × String :=
  if f.2.length > MAX_FILE_SIZE then acc
  else
    let fileBlock := buildChunkAnalysisPrompt f.1 f.2
    if acc.2.length + fileBlock.length > maxChunkChars then
      ((if acc.2 ≠ "" then acc.1 ++ [acc.2] else acc.1),
        if fileBlock.length > maxChunkChars then strTake fileBlock maxChunkChars
        else fileBlock)
    else (acc.1, acc.2 ++ "\n\n" ++ fileBlock)

/-- The chunk list produced from a starting state: run the loop, then push the
trailing non-empty chunk (`src/services/scanner.ts` line 239). The starting
state is generalized for the proofs; the source always starts at `([], "")`. -/
def buildChunksFullFrom (st : List String × String)
    (files : List (String × String)) : List String :=
  let r := files.foldl chunkStep st
  if r.2 ≠ "" then r.1 ++ [r.2] else r.1

/-- The uncapped chunk list of `buildChunks`. -/
def buildChunksFull (files : List (String × String)) : List String :=
  buildChunksFullFrom ([], "") files

/-- Embedding of `ScannerService.buildChunks` (`src/services/scanner.ts`
lines 212-243), including the final cap at 10 chunks. -/
def buildChunks (files : List (String × String)) : List String :=
  (buildChunksFull files).take 10

lemma strTake_length (s : String) (n : Nat) : (strTake s n).length = min n s.length := by
  rw [show (strTake s n).length = (s.data.take n).length from rfl, List.length_take,
    show s.length = s.data.length from rfl]

lemma length_mk_replicate (n : Nat) (c : Char) :
    (String.mk (List.replicate n c)).length = n := by
  rw [show (String.mk (List.replicate n c)).length = (List.replicate n c).length from rfl,
    List.length_replicate]

lemma block_length (p c : String) :
    (buildChunkAnalysisPrompt p c).length
      = (buildChunkAnalysisPrompt p ("")).length + c.length := by
  simp only [buildChunkAnalysisPrompt, String.length_append]
  have h0 : ("" : String).length = 0 := rfl
  omega

lemma block_length_pos (p c : String) : 0 < (buildChunkAnalysisPrompt p c).length := by
  simp only [buildChunkAnalysisPrompt, String.length_append]
  have h9 : ("## File: " : String).length = 9 := rfl
  omega

lemma string_ne_empty_of_length_pos {s : String} (h : 0 < s.length) : s ≠ "" := by
  intro he
  rw [he] at h
  exact absurd h (by decide)

lemma chunkStep_inv (st : List String × String) (f : String × String)
    (h : (∀ c ∈ st.1, c.length ≤ maxChunkChars + 2) ∧ st.2.length ≤ maxChunkChars + 2) :
    (∀ c ∈ (chunkStep st f).1, c.length ≤ maxChunkChars + 2) ∧
      (chunkStep st f).2.length ≤ maxChunkChars + 2 := by
  obtain ⟨hch, hcur⟩ := h
  simp only [chunkStep]
  by_cases h1 : f.2.length > MAX_FILE_SIZE
  · rw [if_pos h1]
    exact ⟨hch, hcur⟩
  · rw [if_neg h1]
    by_cases h2 : st.2.length + (buildChunkAnalysisPrompt f.1 f.2).length > maxChunkChars
    · rw [if_pos h2]
      dsimp only
      constructor
      · intro c hc
        by_cases h3 : st.2 ≠ ""
        · rw [if_pos h3] at hc
          rcases List.mem_append.mp hc with hc | hc
          · exact hch c hc
          · rw [List.mem_singleton.mp hc]
            exact hcur
        · rw [if_neg h3] at hc
          exact hch c hc
      · by_cases h4 : (buildChunkAnalysisPrompt f.1 f.2).length > maxChunkChars
        · rw [if_pos h4, strTake_length]
          omega
        · rw [if_neg h4]
          omega
    · rw [if_neg h2]
      dsimp only
      refine ⟨hch, ?_⟩
      rw [String.length_append, String.length_append]
      have h5 : ("\n\n" : String).length = 2 := rfl
      omega

lemma foldl_inv {σ α : Type} (P : σ → Prop) (g : σ → α → σ)
    (hg : ∀ s a, P s → P (g s a)) :
    ∀ (l : List α) (s : σ), P s → P (l.foldl g s) := by
  intro l
  induction l with
  | nil => intro s h; simpa using h
  | cons x rest ih =>
      intro s h
      rw [List.foldl_cons]
      exact ih _ (hg s x h)

lemma buildChunksFullFrom_bound (files : List (String × String))
    (st : List String × String)
    (h : (∀ c ∈ st.1, c.length ≤ maxChunkChars + 2) ∧ st.2.length ≤ maxChunkChars + 2) :
    ∀ c ∈ buildChunksFullFrom st files, c.length ≤ maxChunkChars + 2 := by
  have hr := foldl_inv
    (fun s : List String × String =>
      (∀ c ∈ s.1, c.length ≤ maxChunkChars + 2) ∧ s.2.length ≤ maxChunkChars + 2)
    chunkStep (fun s a hs => chunkStep_inv s a hs) files st h
  intro c hc
  unfold buildChunksFullFrom at hc
  by_cases h2 : (files.foldl chunkStep st).2 ≠ ""
  · rw [if_pos h2] at hc
    rcases List.mem_append.mp hc with hc | hc
    · exact hr.1 c hc
    · rw [List.mem_singleton.mp hc]
      exact hr.2
  · rw [if_neg h2] at hc
    exact hr.1 c hc

lemma chunks_persist (files : List (String × String)) :
    ∀ (st : List String × String) (c : String),
      c ∈ st.1 → c ∈ buildChunksFullFrom st files := by
  induction files with
  | nil =>
      intro st c hc
      unfold buildChunksFullFrom
      by_cases h : (List.foldl chunkStep st []).2 ≠ ""
      · rw [if_pos h]
        exact List.mem_append_left _ hc
      · rw [if_neg h]
        exact hc
  | cons f rest ih =>
      intro st c hc
      show c ∈ buildChunksFullFrom st (f :: rest)
      have hc' : c ∈ (chunkStep st f).1 := by
        simp only [chunkStep]
        by_cases h1 : f.2.length > MAX_FILE_SIZE
        · rw [if_pos h1]; exact hc
        · rw [if_neg h1]
          by_cases h2 : st.2.length + (buildChunkAnalysisPrompt f.1 f.2).length > maxChunkChars
          · rw [if_pos h2]
            dsimp only
            by_cases h3 : st.2 ≠ ""
            · rw [if_pos h3]
              exact List.mem_append_left _ hc
            · rw [if_neg h3]
              exact hc
          · rw [if_neg h2]
            exact hc
      have : buildChunksFullFrom st (f :: rest) = buildChunksFullFrom (chunkStep st f) rest := by
        unfold buildChunksFullFrom
        rw [List.foldl_cons]
      rw [this]
      exact ih (chunkStep st f) c hc'

lemma current_survives (files : List (String × String)) :
    ∀ st : List String × String, st.2.length = maxChunkChars →
      st.2 ∈ buildChunksFullFrom st files := by
  induction files with
  | nil =>
      intro st hlen
      unfold buildChunksFullFrom
      rw [List.foldl_nil,
        if_pos (string_ne_empty_of_length_pos (by rw [hlen]; decide))]
      exact List.mem_append_right _ (List.mem_singleton.mpr rfl)
  | cons f rest ih =>
      intro st hlen
      have hstep : buildChunksFullFrom st (f :: rest)
          = buildChunksFullFrom (chunkStep st f) rest := by
        unfold buildChunksFullFrom
        rw [List.foldl_cons]
      rw [hstep]
      by_cases h1 : f.2.length > MAX_FILE_SIZE
      · have : chunkStep st f = st := by
          simp only [chunkStep]
          rw [if_pos h1]
        rw [this]
        exact ih st hlen
      · have hbig : st.2.length + (buildChunkAnalysisPrompt f.1 f.2).length > maxChunkChars := by
          have := block_length_pos f.1 f.2
          omega
        have hne : st.2 ≠ "" := string_ne_empty_of_length_pos (by rw [hlen]; decide)
        have hch : st.2 ∈ (chunkStep st f).1 := by
          simp only [chunkStep]
          rw [if_neg h1, if_pos hbig]
          dsimp only
          rw [if_pos hne]
          exact List.mem_append_right _ (List.mem_singleton.mpr rfl)
        exact chunks_persist rest (chunkStep st f) st.2 hch

lemma oversized_trunc_mem (files : List (String × String)) :
    ∀ (st : List String × String) (f : String × String),
      f ∈ files → f.2.length ≤ MAX_FILE_SIZE →
      maxChunkChars < (buildChunkAnalysisPrompt f.1 f.2).length →
      strTake (buildChunkAnalysisPrompt f.1 f.2) maxChunkChars
        ∈ buildChunksFullFrom st files := by
  induction files with
  | nil => intro st f hf; exact absurd hf (List.not_mem_nil f)
  | cons g rest ih =>
      intro st f hf hsize hbig
      have hstep : buildChunksFullFrom st (g :: rest)
          = buildChunksFullFrom (chunkStep st g) rest := by
        unfold buildChunksFullFrom
        rw [List.foldl_cons]
      rw [hstep]
      rcases List.mem_cons.mp hf with hf | hf
      · subst hf
        have hover : st.2.length + (buildChunkAnalysisPrompt f.1 f.2).length > maxChunkChars := by
          omega
        have hcur : (chunkStep st f).2 = strTake (buildChunkAnalysisPrompt f.1 f.2) maxChunkChars := by
          simp only [chunkStep]
          rw [if_neg (by omega), if_pos hover]
          dsimp only
          rw [if_pos (by omega)]
        have hlen : (chunkStep st f).2.length = maxChunkChars := by
          rw [hcur, strTake_length]
          omega
        have := current_survives rest (chunkStep st f) hlen
        rwa [hcur] at this
      · exact ih (chunkStep st g) f hf hsize hbig

/-- C3 (amended): the chunk builder emits at most 10 chunks; every emitted
chunk's length is at most the character budget plus 2 — the two-character
block separator can push a chunk up to 2 characters past the budget, the
budget itself is not a strict bound — and the block of a single file
exceeding the budget enters the (uncapped) chunk list as exactly its first
`budget` characters. -/
theorem scan_chunks_claim (files : List (String × String)) :
    (buildChunks files).length ≤ 10 ∧
    (∀ c ∈ buildChunks files, c.length ≤ maxChunkChars + 2) ∧
    (∀ f ∈ files, f.2.length ≤ MAX_FILE_SIZE →
      maxChunkChars < (buildChunkAnalysisPrompt f.1 f.2).length →
      strTake (buildChunkAnalysisPrompt f.1 f.2) maxChunkChars ∈ buildChunksFull files ∧
      (strTake (buildChunkAnalysisPrompt f.1 f.2) maxChunkChars).length = maxChunkChars) := by
  refine ⟨?_, ?_, ?_⟩
  · rw [buildChunks, List.length_take]
    omega
  · intro c hc
    have hc' : c ∈ buildChunksFull files := List.take_subset 10 _ hc
    exact buildChunksFullFrom_bound files ([], "") (by constructor <;> simp) c hc'
  · intro f hf hsize hbig
    refine ⟨oversized_trunc_mem files ([], "") f hf hsize hbig, ?_⟩
    rw [strTake_length]
    omega

/-- Oversized sample file: its block exceeds the 16000-character budget. -/
def wBigContent : String := String.mk (List.replicate 16001 'a')

theorem scan_chunks_claim_witness :
    strTake (buildChunkAnalysisPrompt ("a") wBigContent) maxChunkChars
      ∈ buildChunksFull [(("a"), wBigContent)] ∧
    (strTake (buildChunkAnalysisPrompt ("a") wBigContent) maxChunkChars).length
      = maxChunkChars :=
  scan_chunks_claim [(("a"), wBigContent)] |>.2.2 (("a"), wBigContent)
    (List.mem_singleton.mpr rfl)
    (by show wBigContent.length ≤ MAX_FILE_SIZE
        rw [show wBigContent.length = 16001 from length_mk_replicate 16001 'a']
        decide)
    (by show maxChunkChars < (buildChunkAnalysisPrompt ("a") wBigContent).length
        rw [block_length,
          show wBigContent.length = 16001 from length_mk_replicate 16001 'a',
          show (buildChunkAnalysisPrompt ("a") ("")).length = 116 from by decide]
        decide)

/-- Contents sized so that two blocks of 7999 characters pack into one chunk of
16002 characters. -/
def cxChunkContent : String := String.mk (List.replicate 7883 'a')

/-- The C3 counterexample file list: two files whose blocks are 7999 characters
each. -/
def cxChunkFiles : List (String × String) :=
  [(("a"), cxChunkContent), (("a"), cxChunkContent)]

lemma cxChunk_block_length :
    (buildChunkAnalysisPrompt ("a") cxChunkContent).length = 7999 := by
  rw [block_length]
  have h1 : cxChunkContent.length = 7883 := length_mk_replicate 7883 'a'
  have h2 : (buildChunkAnalysisPrompt ("a") ("")).length = 116 := by decide
  omega

/-- C3 counterexample: the two 7999-character blocks of `cxChunkFiles` are each
within the 16000-character budget, yet the single emitted chunk has length
16002 — the separator join is not counted by the overflow guard, so a chunk
can exceed the budget even though no single file's block does. -/
lemma chunkStep_append (st : List String × String) (f : String × String)
    (h1 : ¬(f.2.length > MAX_FILE_SIZE))
    (h2 : ¬(st.2.length + (buildChunkAnalysisPrompt f.1 f.2).length > maxChunkChars)) :
    chunkStep st f = (st.1, st.2 ++ "\n\n" ++ buildChunkAnalysisPrompt f.1 f.2) := by
  simp only [chunkStep]
  rw [if_neg h1, if_neg h2]

/-- C3 counterexample: the two 7999-character blocks of `cxChunkFiles` are each
within the 16000-character budget, yet the single emitted chunk has length
16002 — the separator join is not counted by the overflow guard, so a chunk
can exceed the budget even though no single file's block does. -/
theorem scan_chunks_counterexample :
    ((buildChunkAnalysisPrompt ("a") cxChunkContent).length ≤ maxChunkChars) ∧
    (buildChunks cxChunkFiles).map String.length = [16002] ∧
    (∃ c ∈ buildChunks cxChunkFiles, maxChunkChars < c.length) := by
  have hb := cxChunk_block_length
  have hsize : cxChunkContent.length = 7883 := length_mk_replicate 7883 'a'
  have hempty : ("" : String).length = 0 := rfl
  have hsep : ("\n\n" : String).length = 2 := rfl
  have hskip : ¬((("a"), cxChunkContent).2.length > MAX_FILE_SIZE) := by
    rw [show (("a"), cxChunkContent).2.length = cxChunkContent.length from rfl, hsize]
    decide
  have step1 : chunkStep ([], "") (("a"), cxChunkContent)
      = ([], "" ++ "\n\n" ++ buildChunkAnalysisPrompt ("a") cxChunkContent) := by
    rw [chunkStep_append ([], "") (("a"), cxChunkContent) hskip
      (by rw [show (([], "") : List String × String).2.length = ("" : String).length from rfl,
            hempty,
            show buildChunkAnalysisPrompt (("a"), cxChunkContent).1
              (("a"), cxChunkContent).2 = buildChunkAnalysisPrompt ("a") cxChunkContent from rfl,
            hb]
          decide)]
  have hcur1 : ("" ++ "\n\n" ++ buildChunkAnalysisPrompt ("a") cxChunkContent).length
      = 8001 := by
    rw [String.length_append, String.length_append, hempty, hsep, hb]
  have step2 : chunkStep ([], "" ++ "\n\n" ++ buildChunkAnalysisPrompt ("a") cxChunkContent)
      (("a"), cxChunkContent)
      = ([], ("" ++ "\n\n" ++ buildChunkAnalysisPrompt ("a") cxChunkContent)
          ++ "\n\n" ++ buildChunkAnalysisPrompt ("a") cxChunkContent) := by
    rw [chunkStep_append _ (("a"), cxChunkContent) hskip
      (by rw [show (([], "" ++ "\n\n" ++ buildChunkAnalysisPrompt ("a") cxChunkContent) :
              List String × String).2.length
              = ("" ++ "\n\n" ++ buildChunkAnalysisPrompt ("a") cxChunkContent).length from rfl,
            hcur1,
            show buildChunkAnalysisPrompt (("a"), cxChunkContent).1
              (("a"), cxChunkContent).2 = buildChunkAnalysisPrompt ("a") cxChunkContent from rfl,
            hb]
          decide)]
  have hcur2 : (("" ++ "\n\n" ++ buildChunkAnalysisPrompt ("a") cxChunkContent)
      ++ "\n\n" ++ buildChunkAnalysisPrompt ("a") cxChunkContent).length = 16002 := by
    rw [String.length_append, String.length_append, hcur1, hsep, hb]
  have hfold : cxChunkFiles.foldl chunkStep ([], "")
      = ([], ("" ++ "\n\n" ++ buildChunkAnalysisPrompt ("a") cxChunkContent)
          ++ "\n\n" ++ buildChunkAnalysisPrompt ("a") cxChunkContent) := by
    show List.foldl chunkStep ([], "")
        [(("a"), cxChunkContent), (("a"), cxChunkContent)] = _
    rw [List.foldl_cons, step1, List.foldl_cons, step2, List.foldl_nil]
  have hfull : buildChunksFull cxChunkFiles
      = [("" ++ "\n\n" ++ buildChunkAnalysisPrompt ("a") cxChunkContent)
          ++ "\n\n" ++ buildChunkAnalysisPrompt ("a") cxChunkContent] := by
    show buildChunksFullFrom ([], "") cxChunkFiles = _
    unfold buildChunksFullFrom
    rw [hfold]
    dsimp only
    rw [if_pos (string_ne_empty_of_length_pos (by rw [hcur2] ; decide))]
    rfl
  have hchunks : buildChunks cxChunkFiles
      = [("" ++ "\n\n" ++ buildChunkAnalysisPrompt ("a") cxChunkContent)
          ++ "\n\n" ++ buildChunkAnalysisPrompt ("a") cxChunkContent] := by
    rw [buildChunks, hfull]
    rfl
  refine ⟨by rw [hb] ; decide, ?_, ?_⟩
  · rw [hchunks, List.map_cons, List.map_nil, hcur2]
  · refine ⟨_, by rw [hchunks] ; exact List.mem_singleton.mpr rfl, ?_⟩
    rw [hcur2]
    decide

/-! ## Pattern analyzers (`src/analyzers/bugs.ts`, `src/analyzers/security.ts`)

The analyzers test a fixed table of JavaScript regular expressions against
each line. The expressions are embedded through a small executable regex
engine: a syntax tree `Re` and a fueled backtracking matcher whose
acceptance semantics (does some match exist at some position, as
`RegExp.test` asks) is what the analyzers consume. Each table entry carries
its source regex in a comment. -/

/-- Regular-expression syntax: empty, literal character, character class,
concatenation, alternation, star, optional, fixed repetition, negative
lookahead, line anchors and the word boundary. -/
inductive Re where
  | emp : Re
  | ch (c : Char) : Re
  | cls (p : Char → Bool) : Re
  | seq (a b : Re) : Re
  | alt (a b : Re) : Re
  | star (a : Re) : Re
  | qm (a : Re) : Re
  | rep (a : Re) (n : Nat) : Re
  | nla (a : Re) : Re
  | bol : Re
  | eol : Re
  | wb : Re

/-- Character comparison under the optional ignore-case flag. -/
def ceq (ci : Bool) (a b : Char) : Bool :=
  if ci then a.toLower == b.toLower else a == b

/-- Class test under the optional ignore-case flag. -/
def clsTest (ci : Bool) (p : Char → Bool) (c : Char) : Bool :=
  if ci then p c || p c.toLower || p c.toUpper else p c

/-- JavaScript `\w`: ASCII letters, digits and underscore. -/
def isWordChar (c : Char) : Bool := c.isAlpha || c.isDigit || c == '_'

/-- Word-boundary test between the previously consumed character and the
rest of the input. -/
def atWb (prev : Option Char) (s : List Char) : Bool :=
  (match prev with
    | some c => isWordChar c
    | none => false)
    != (match s with
    | c :: _ => isWordChar c
    | [] => false)

/-- Fueled CPS backtracking matcher: `mtch fuel ci re s prev k` succeeds when
`re` matches a prefix of `s` (with `prev` the character before `s`, for
anchors and word boundaries) and the continuation `k` accepts the rest. The
fuel only bounds recursion depth; it is chosen large enough by `reTest`. -/
def mtch : Nat → Bool → Re → List Char → Option Char →
    (List Char → Option Char → Bool) → Bool
  | 0, _, _, _, _, _ => false
  | fuel + 1, ci, re, s, prev, k =>
    match re with
    | .emp => k s prev
    | .ch c =>
      match s with
      | [] => false
      | x :: rest => if ceq ci x c then k rest (some x) else false
    | .cls p =>
      match s with
      | [] => false
      | x :: rest => if clsTest ci p x then k rest (some x) else false
    | .seq a b => mtch fuel ci a s prev (fun s2 p2 => mtch fuel ci b s2 p2 k)
    | .alt a b => mtch fuel ci a s prev k || mtch fuel ci b s prev k
    | .star a =>
      k s prev || mtch fuel ci a s prev (fun s2 p2 =>
        if s2.length < s.length then mtch fuel ci (.star a) s2 p2 k else false)
    | .qm a => k s prev || mtch fuel ci a s prev k
    | .rep a n =>
      match n with
      | 0 => k s prev
      | m + 1 => mtch fuel ci a s prev (fun s2 p2 => mtch fuel ci (.rep a m) s2 p2 k)
    | .nla a => if mtch fuel ci a s prev (fun _ _ => true) then false else k s prev
    | .bol => if prev.isNone then k s prev else false
    | .eol => if s.isEmpty then k s prev else false
    | .wb => if atWb prev s then k s prev else false

/-- Syntactic size of a regex, used to budget the matcher fuel. -/
def reSize : Re → Nat
  | .emp => 1
  | .ch _ => 1
  | .cls _ => 1
  | .seq a b => reSize a + reSize b + 1
  | .alt a b => reSize a + reSize b + 1
  | .star a => reSize a + 1
  | .qm a => reSize a + 1
  | .rep a n => (reSize a + 1) * (n + 1) + 1
  | .nla a => reSize a + 1
  | .bol => 1
  | .eol => 1
  | .wb => 1

/-- Fuel budget: generous bound on the recursion depth any search path of
`mtch` can need on the given input. -/
def reFuel (re : Re) (s : List Char) : Nat :=
  (reSize re + 4) * (s.length + 4) * 4

/-- Try the match at every start position, threading the previous character. -/
def reTestAux (fuel : Nat) (ci : Bool) (re : Re) : List Char → Option Char → Bool
  | [], prev => mtch fuel ci re [] prev (fun _ _ => true)
  | x :: rest, prev =>
    mtch fuel ci re (x :: rest) prev (fun _ _ => true) ||
      reTestAux fuel ci re rest (some x)

/-- Model of JavaScript `RegExp.test` (without the global flag, as in the
analyzer tables): does the regex match anywhere in the string. -/
def reTest (ci : Bool) (re : Re) (s : String) : Bool :=
  reTestAux (reFuel re s.data) ci re s.data none

/-- A literal string as a regex. -/
def rstr (s : String) : Re := s.data.foldr (fun c acc => Re.seq (Re.ch c) acc) Re.emp

/-- Concatenation of a list of regexes. -/
def seqs (l : List Re) : Re := l.foldr Re.seq Re.emp

/-- Alternation of a non-empty list of regexes. -/
def alts : List Re → Re
  | [] => Re.emp
  | [r] => r
  | r :: rest => Re.alt r (alts rest)

/-- JavaScript `\s` as a class. -/
def wsCls : Re := Re.cls isJsWs

/-- JavaScript `+`: one or more. -/
def rplus (r : Re) : Re := Re.seq r (Re.star r)

/-- JavaScript `.`: any character but a line terminator. -/
def anyCh : Re := Re.cls (fun c => !(c == '\n') && !(c == '\r'))

/-- JavaScript `\w` as a class. -/
def wordCls : Re := Re.cls isWordChar

/-- A class matching any character except the given one. -/
def notCh (c : Char) : Re := Re.cls (fun x => !(x == c))

/-- Model of JavaScript `endsWith`. -/
def strEndsWith (s suf : String) : Bool := suf.data.isSuffixOf s.data

/-- A row of an analyzer pattern table: `src/analyzers/bugs.ts` lines 9-17 and
`src/analyzers/security.ts` lines 8-16 (`ci` records the regex's `i` flag). -/
structure AnalyzerPattern where
  name : String
  pattern : Re
  ci : Bool
  title : String
  description : String
  fix : String
  severity : IssueSeverity
  fileFilter : Option (String → Bool)

/-- The `PATTERNS` table of `src/analyzers/bugs.ts` lines 19-120; each entry's
comment restates the source regex. -/
def BUG_PATTERNS : List AnalyzerPattern :=
  [ -- \.then\s*\([^)]*\)\s*(?!\.catch|\.finally)
    { name := "then-no-catch",
      pattern := seqs [rstr (".then"), Re.star wsCls, Re.ch '(', Re.star (notCh ')'),
        Re.ch ')', Re.star wsCls, Re.nla (Re.alt (rstr (".catch")) (rstr (".finally")))],
      ci := false,
      title := "Promise .then() Without .catch()",
      description := "This Promise chain has a .then() handler but no .catch(). Unhandled rejections can crash the process.",
      fix := "Add .catch(err => \x7b /* handle error */ \x7d) or use async/await with try/catch",
      severity := IssueSeverity.warning, fileFilter := none },
    -- ^\s+(?!return\s|await\s|void\s|const\s|let\s|var\s|\/\/|if|for|while)[a-zA-Z_$][\w$.]*\([^)]*\)\s*;?\s*$
    { name := "floating-promise",
      pattern := seqs [Re.bol, rplus wsCls,
        Re.nla (alts [Re.seq (rstr ("return")) wsCls, Re.seq (rstr ("await")) wsCls,
          Re.seq (rstr ("void")) wsCls, Re.seq (rstr ("const")) wsCls,
          Re.seq (rstr ("let")) wsCls, Re.seq (rstr ("var")) wsCls,
          rstr ("//"), rstr ("if"), rstr ("for"), rstr ("while")]),
        Re.cls (fun c => c.isAlpha || c == '_' || c == '$'),
        Re.star (Re.cls (fun c => isWordChar c || c == '$' || c == '.')),
        Re.ch '(', Re.star (notCh ')'), Re.ch ')', Re.star wsCls,
        Re.qm (Re.ch ';'), Re.star wsCls, Re.eol],
      ci := false,
      title := "Possible Floating Promise",
      description := "A function call returns a value that\x27s not awaited, returned, or assigned. If it returns a Promise, this could silently swallow errors.",
      fix := "Add await, assign to a variable, or explicitly void it: void someAsyncFunction()",
      severity := IssueSeverity.suggestion,
      fileFilter := some (fun f => strEndsWith f (".ts") || strEndsWith f (".tsx")
        || strEndsWith f (".js") || strEndsWith f (".jsx")) },
    -- ==\s*null\b|null\s*==[^=]
    { name := "loose-equality-null",
      pattern := Re.alt (seqs [rstr ("=="), Re.star wsCls, rstr ("null"), Re.wb])
        (seqs [rstr ("null"), Re.star wsCls, rstr ("=="), notCh '=']),
      ci := false,
      title := "Loose Equality with null",
      description := "Using == null matches both null and undefined. This might be intentional, but === null or === undefined is safer.",
      fix := "Use strict equality: === null or === undefined",
      severity := IssueSeverity.suggestion, fileFilter := none },
    -- \?\.\w+\s*=[^=]
    { name := "optional-chain-assignment",
      pattern := seqs [rstr ("?."), rplus wordCls, Re.star wsCls, Re.ch '=', notCh '='],
      ci := false,
      title := "Assignment to Optional Chain",
      description := "Assigning a value to an optional chain (foo?.bar = x) will throw if the base is nullish in strict mode.",
      fix := "Add a null check before assignment: if (foo) \x7b foo.bar = x; \x7d",
      severity := IssueSeverity.warning, fileFilter := none },
    -- console\.(log|debug|info|dir|table)\s*\(
    { name := "console-log-left",
      pattern := seqs [rstr ("console."),
        alts [rstr ("log"), rstr ("debug"), rstr ("info"), rstr ("dir"), rstr ("table")],
        Re.star wsCls, Re.ch '('],
      ci := false,
      title := "console.log Left in Code",
      description := "Debug console statement left in code. Should be removed before production.",
      fix := "Remove the console statement or replace with proper logger",
      severity := IssueSeverity.suggestion, fileFilter := none },
    -- ^\s*debugger\s*;?\s*$
    { name := "debugger-statement",
      pattern := seqs [Re.bol, Re.star wsCls, rstr ("debugger"), Re.star wsCls,
        Re.qm (Re.ch ';'), Re.star wsCls, Re.eol],
      ci := false,
      title := "debugger Statement",
      description := "A debugger statement is present. This will pause execution in development and should be removed.",
      fix := "Remove the debugger statement",
      severity := IssueSeverity.warning, fileFilter := none },
    -- \/\/\s*(?:TODO|FIXME|HACK|XXX|BUG)\b  (i flag)
    { name := "todo-fixme",
      pattern := seqs [rstr ("//"), Re.star wsCls,
        alts [rstr ("TODO"), rstr ("FIXME"), rstr ("HACK"), rstr ("XXX"), rstr ("BUG")],
        Re.wb],
      ci := true,
      title := "TODO/FIXME Comment",
      description := "A TODO or FIXME comment indicates unfinished work that should be addressed.",
      fix := "Address the TODO or create a ticket and reference it",
      severity := IssueSeverity.suggestion, fileFilter := none },
    -- delete\s+\w+\[\w+\]
    { name := "array-delete",
      pattern := seqs [rstr ("delete"), rplus wsCls, rplus wordCls, Re.ch '[',
        rplus wordCls, Re.ch ']'],
      ci := false,
      title := "Using delete on Array Element",
      description := "delete on an array creates a hole (undefined at that index). Use splice() to remove elements properly.",
      fix := "Use array.splice(index, 1) instead of delete",
      severity := IssueSeverity.warning, fileFilter := none },
    -- JSON\.parse\s*\([^)]+\)(?!\s*catch|\s*\))
    { name := "json-parse-no-try",
      pattern := seqs [rstr ("JSON.parse"), Re.star wsCls, Re.ch '(',
        rplus (notCh ')'), Re.ch ')',
        Re.nla (Re.alt (Re.seq (Re.star wsCls) (rstr ("catch")))
          (Re.seq (Re.star wsCls) (Re.ch ')')))],
      ci := false,
      title := "JSON.parse Without try/catch",
      description := "JSON.parse can throw a SyntaxError on invalid input. Without try/catch, this will crash.",
      fix := "Wrap in try/catch: try \x7b JSON.parse(data) \x7d catch(e) \x7b /* handle */ \x7d",
      severity := IssueSeverity.warning, fileFilter := none },
    -- async\s+(?:function\s+\w+|[\w$]+\s*=\s*async)\s*\([^)]*\)\s*(?::\s*\w+)?\s*\{[^}]*\}
    { name := "async-no-await",
      pattern := seqs [rstr ("async"), rplus wsCls,
        Re.alt (seqs [rstr ("function"), rplus wsCls, rplus wordCls])
          (seqs [rplus (Re.cls (fun c => isWordChar c || c == '$')), Re.star wsCls,
            Re.ch '=', Re.star wsCls, rstr ("async")]),
        Re.star wsCls, Re.ch '(', Re.star (notCh ')'), Re.ch ')', Re.star wsCls,
        Re.qm (seqs [Re.ch ':', Re.star wsCls, rplus wordCls]), Re.star wsCls,
        Re.ch '{', Re.star (notCh '}'), Re.ch '}'],
      ci := false,
      title := "Async Function Without await",
      description := "This async function doesn\x27t appear to use await. It might not need to be async.",
      fix := "Remove async keyword or add await where needed",
      severity := IssueSeverity.suggestion, fileFilter := none },
    -- catch\s*\(\s*\w*\s*\)\s*\{\s*\}
    { name := "empty-catch",
      pattern := seqs [rstr ("catch"), Re.star wsCls, Re.ch '(', Re.star wsCls,
        Re.star wordCls, Re.star wsCls, Re.ch ')', Re.star wsCls, Re.ch '{',
        Re.star wsCls, Re.ch '}'],
      ci := false,
      title := "Empty catch Block",
      description := "An empty catch block silently swallows errors. At minimum, log the error.",
      fix := "Add error handling: catch(e) \x7b console.error(e); \x7d",
      severity := IssueSeverity.warning, fileFilter := none } ]

/-- The `PATTERNS` table of `src/analyzers/security.ts` lines 18-118. -/
def SECURITY_PATTERNS : List AnalyzerPattern :=
  [ -- (?:AKIA|ASIA)[0-9A-Z]{16}
    { name := "hardcoded-aws-key",
      pattern := seqs [Re.alt (rstr ("AKIA")) (rstr ("ASIA")),
        Re.rep (Re.cls (fun c => c.isDigit || ('A' ≤ c ∧ c ≤ 'Z'))) 16],
      ci := false,
      title := "Hardcoded AWS Access Key",
      description := "AWS access key ID found in source code. This should be stored securely in environment variables.",
      fix := "Move to .env file and use process.env.AWS_ACCESS_KEY_ID",
      severity := IssueSeverity.critical, fileFilter := none },
    -- (?:api[_-]?key|apikey|api[_-]?secret|secret[_-]?key)\s*[:=]\s*['"][A-Za-z0-9_\-]{16,}['"]  (i flag)
    { name := "hardcoded-api-key",
      pattern := seqs [alts [seqs [rstr ("api"), Re.qm (Re.cls (fun c => c == '_' || c == '-')), rstr ("key")],
          rstr ("apikey"),
          seqs [rstr ("api"), Re.qm (Re.cls (fun c => c == '_' || c == '-')), rstr ("secret")],
          seqs [rstr ("secret"), Re.qm (Re.cls (fun c => c == '_' || c == '-')), rstr ("key")]],
        Re.star wsCls, Re.cls (fun c => c == ':' || c == '='), Re.star wsCls,
        Re.cls (fun c => c == '\'' || c == '"'),
        Re.rep (Re.cls (fun c => c.isAlpha || c.isDigit || c == '_' || c == '-')) 16,
        Re.star (Re.cls (fun c => c.isAlpha || c.isDigit || c == '_' || c == '-')),
        Re.cls (fun c => c == '\'' || c == '"')],
      ci := true,
      title := "Hardcoded API Key or Secret",
      description := "An API key or secret appears to be hardcoded in the source. This is a security risk if committed.",
      fix := "Use environment variables: process.env.YOUR_API_KEY",
      severity := IssueSeverity.critical, fileFilter := none },
    -- (?:password|passwd|pwd)\s*[:=]\s*['"][^'"]{4,}['"]  (i flag)
    { name := "hardcoded-password",
      pattern := seqs [alts [rstr ("password"), rstr ("passwd"), rstr ("pwd")],
        Re.star wsCls, Re.cls (fun c => c == ':' || c == '='), Re.star wsCls,
        Re.cls (fun c => c == '\'' || c == '"'),
        Re.rep (Re.cls (fun c => !(c == '\'' || c == '"'))) 4,
        Re.star (Re.cls (fun c => !(c == '\'' || c == '"'))),
        Re.cls (fun c => c == '\'' || c == '"')],
      ci := true,
      title := "Hardcoded Password",
      description := "A password string appears to be hardcoded. Use environment variables or a secrets manager.",
      fix := "Store in environment variable or secrets manager",
      severity := IssueSeverity.critical, fileFilter := none },
    -- -----BEGIN (?:RSA|EC|DSA|OPENSSH) PRIVATE KEY-----
    { name := "private-key-pattern",
      pattern := seqs [rstr ("-----BEGIN "),
        alts [rstr ("RSA"), rstr ("EC"), rstr ("DSA"), rstr ("OPENSSH")],
        rstr (" PRIVATE KEY-----")],
      ci := false,
      title := "Private Key in Source Code",
      description := "A private key is present in the source code. This should never be committed to version control.",
      fix := "Remove the key and load from a secure file or environment variable",
      severity := IssueSeverity.critical, fileFilter := none },
    -- (?:jwt[_-]?secret|token[_-]?secret)\s*[:=]\s*['"][^'"]{8,}['"]  (i flag)
    { name := "jwt-secret-hardcoded",
      pattern := seqs [alts [seqs [rstr ("jwt"), Re.qm (Re.cls (fun c => c == '_' || c == '-')), rstr ("secret")],
          seqs [rstr ("token"), Re.qm (Re.cls (fun c => c == '_' || c == '-')), rstr ("secret")]],
        Re.star wsCls, Re.cls (fun c => c == ':' || c == '='), Re.star wsCls,
        Re.cls (fun c => c == '\'' || c == '"'),
        Re.rep (Re.cls (fun c => !(c == '\'' || c == '"'))) 8,
        Re.star (Re.cls (fun c => !(c == '\'' || c == '"'))),
        Re.cls (fun c => c == '\'' || c == '"')],
      ci := true,
      title := "Hardcoded JWT Secret",
      description := "A JWT secret is hardcoded. This should be stored in an environment variable.",
      fix := "Use process.env.JWT_SECRET",
      severity := IssueSeverity.critical, fileFilter := none },
    -- dangerouslySetInnerHTML\s*=\s*\{\s*\{\s*__html\s*:
    { name := "dangerously-set-html",
      pattern := seqs [rstr ("dangerouslySetInnerHTML"), Re.star wsCls, Re.ch '=',
        Re.star wsCls, Re.ch '{', Re.star wsCls, Re.ch '{', Re.star wsCls,
        rstr ("__html"), Re.star wsCls, Re.ch ':'],
      ci := false,
      title := "dangerouslySetInnerHTML Usage",
      description := "Using dangerouslySetInnerHTML can lead to XSS attacks if the content isn\x27t properly sanitized.",
      fix := "Sanitize HTML with DOMPurify: import DOMPurify from \x27dompurify\x27; dangerouslySetInnerHTML=\x7b\x7b __html: DOMPurify.sanitize(html) \x7d\x7d",
      severity := IssueSeverity.warning,
      fileFilter := some (fun f => strEndsWith f (".tsx") || strEndsWith f (".jsx")) },
    -- \.innerHTML\s*=(?!=)
    { name := "inner-html-assignment",
      pattern := seqs [rstr (".innerHTML"), Re.star wsCls, Re.ch '=', Re.nla (Re.ch '=')],
      ci := false,
      title := "Direct innerHTML Assignment",
      description := "Setting innerHTML directly can introduce XSS vulnerabilities. Use textContent or a sanitization library.",
      fix := "Use element.textContent = value or sanitize with DOMPurify",
      severity := IssueSeverity.warning, fileFilter := none },
    -- (?:SELECT|INSERT|UPDATE|DELETE|FROM|WHERE)\s.*?\+\s*(?:req|params|query|body|input|user)  (i flag)
    { name := "sql-string-concat",
      pattern := seqs [alts [rstr ("SELECT"), rstr ("INSERT"), rstr ("UPDATE"),
          rstr ("DELETE"), rstr ("FROM"), rstr ("WHERE")],
        wsCls, Re.star anyCh, Re.ch '+', Re.star wsCls,
        alts [rstr ("req"), rstr ("params"), rstr ("query"), rstr ("body"),
          rstr ("input"), rstr ("user")]],
      ci := true,
      title := "Possible SQL Injection",
      description := "SQL query appears to use string concatenation with user input. Use parameterized queries instead.",
      fix := "Use parameterized queries: db.query(\x27SELECT * FROM users WHERE id = ?\x27, [userId])",
      severity := IssueSeverity.critical, fileFilter := none },
    -- (?:SELECT|INSERT|UPDATE|DELETE|FROM|WHERE)\s.*?\$\{(?:req|params|query|body|input|user)  (i flag)
    { name := "sql-template-literal",
      pattern := seqs [alts [rstr ("SELECT"), rstr ("INSERT"), rstr ("UPDATE"),
          rstr ("DELETE"), rstr ("FROM"), rstr ("WHERE")],
        wsCls, Re.star anyCh, Re.ch '$', Re.ch '{',
        alts [rstr ("req"), rstr ("params"), rstr ("query"), rstr ("body"),
          rstr ("input"), rstr ("user")]],
      ci := true,
      title := "SQL Injection via Template Literal",
      description := "SQL query uses template literals with user input. Use parameterized queries.",
      fix := "Use parameterized queries instead of template literals",
      severity := IssueSeverity.critical, fileFilter := none },
    -- process\.env\.(?!NODE_ENV|NEXT_PUBLIC_|REACT_APP_|VITE_)
    { name := "process-env-in-frontend",
      pattern := seqs [rstr ("process.env."),
        Re.nla (alts [rstr ("NODE_ENV"), rstr ("NEXT_PUBLIC_"), rstr ("REACT_APP_"),
          rstr ("VITE_")])],
      ci := false,
      title := "Server-side env var in potentially frontend code",
      description := "process.env usage without a public prefix (NEXT_PUBLIC_, REACT_APP_, VITE_) might expose server secrets in the client bundle.",
      fix := "Prefix with NEXT_PUBLIC_, REACT_APP_, or VITE_ for client-side vars, or keep on server only",
      severity := IssueSeverity.warning,
      fileFilter := some (fun f => strEndsWith f (".tsx") || strEndsWith f (".jsx")
        || strEndsWith f (".vue") || strEndsWith f (".svelte")) },
    -- \beval\s*\(
    { name := "eval-usage",
      pattern := seqs [Re.wb, rstr ("eval"), Re.star wsCls, Re.ch '('],
      ci := false,
      title := "eval() Usage Detected",
      description := "Using eval() is dangerous as it can execute arbitrary code. Avoid unless absolutely necessary.",
      fix := "Replace with JSON.parse(), Function constructor, or structured alternatives",
      severity := IssueSeverity.warning, fileFilter := none } ]

/-- One line iteration of `analyzeBugIssues` (`src/analyzers/bugs.ts`
lines 132-152); the state is (issues so far, uuid fragments consumed). -/
def bugLineStep (p : AnalyzerPattern) (filePath : String) (u : Nat → String)
    (acc : List CodeIssue × Nat) (il : Nat × String) : List CodeIssue × Nat :=
  let trimmed := strTrim il.2
  if trimmed == "" || strStartsWith trimmed ("//") || strStartsWith trimmed ("*") then acc
  else if reTest p.ci p.pattern il.2 then
    (acc.1 ++ [{ id := "bug-" ++ p.name ++ "-" ++ u acc.2, file := filePath,
                 line := il.1 + 1, category := IssueCategory.bugs,
                 severity := p.severity, title := p.title,
                 description := p.description, fix := p.fix, suppressed := false }],
      acc.2 + 1)
  else acc

/-- One pattern iteration of `analyzeBugIssues` (`src/analyzers/bugs.ts`
lines 129-153), honouring the file filter. -/
def bugPatternStep (filePath : String) (lines : List (Nat × String)) (u : Nat → String)
    (acc : List CodeIssue × Nat) (p : AnalyzerPattern) : List CodeIssue × Nat :=
  if (match p.fileFilter with
    | some flt => flt filePath
    | none => true) then
    lines.foldl (bugLineStep p filePath u) acc
  else acc

/-- Embedding of `analyzeBugIssues` (`src/analyzers/bugs.ts` lines 122-156);
`u` supplies the 8-character random id fragment for each finding in creation
order. -/
def analyzeBugIssues (filePath content : String) (u : Nat → String) : List CodeIssue :=
  (BUG_PATTERNS.foldl (bugPatternStep filePath (strSplit content '\n').enum u) ([], 0)).1

/-- One line iteration of `analyzeSecurityIssues` (`src/analyzers/security.ts`
lines 131-150). -/
def secLineStep (p : AnalyzerPattern) (filePath : String)
    (acc : List CodeIssue) (il : Nat × String) : List CodeIssue :=
  let trimmed := strTrim il.2
  if strStartsWith trimmed ("//") || strStartsWith trimmed ("*")
      || strStartsWith trimmed ("/*") then acc
  else if reTest p.ci p.pattern il.2 then
    acc ++ [{ id := "sec-" ++ p.name ++ "-" ++ filePath ++ ":" ++ toString (il.1 + 1),
              file := filePath, line := il.1 + 1, category := IssueCategory.security,
              severity := p.severity, title := p.title, description := p.description,
              fix := p.fix, suppressed := false }]
  else acc

/-- One pattern iteration of `analyzeSecurityIssues`
(`src/analyzers/security.ts` lines 127-151). -/
def secPatternStep (filePath : String) (lines : List (Nat × String))
    (acc : List CodeIssue) (p : AnalyzerPattern) : List CodeIssue :=
  if (match p.fileFilter with
    | some flt => flt filePath
    | none => true) then
    lines.foldl (secLineStep p filePath) acc
  else acc

/-- Embedding of `analyzeSecurityIssues` (`src/analyzers/security.ts`
lines 120-154); no random state enters — the ids are built from the pattern
name, the file path and the line number. -/
def analyzeSecurityIssues (filePath content : String) : List CodeIssue :=
  SECURITY_PATTERNS.foldl (secPatternStep filePath (strSplit content '\n').enum) []

/-- A finding with its id erased. -/
def eraseId (i : CodeIssue) : CodeIssue := { i with id := "" }

/-- Two analyzer states agree except for the random fragments inside ids. -/
def BugRel (a b : List CodeIssue × Nat) : Prop :=
  a.1.map eraseId = b.1.map eraseId ∧ a.2 = b.2

lemma foldl_rel {α σ τ : Type} (R : σ → τ → Prop) (f : σ → α → σ) (g : τ → α → τ)
    (h : ∀ s t a, R s t → R (f s a) (g t a)) :
    ∀ (l : List α) (s : σ) (t : τ), R s t → R (l.foldl f s) (l.foldl g t) := by
  intro l
  induction l with
  | nil => intro s t h0; simpa using h0
  | cons x rest ih =>
      intro s t h0
      rw [List.foldl_cons, List.foldl_cons]
      exact ih _ _ (h s t x h0)

lemma bugLineStep_rel (p : AnalyzerPattern) (fp : String) (u₁ u₂ : Nat → String)
    (a b : List CodeIssue × Nat) (il : Nat × String) (h : BugRel a b) :
    BugRel (bugLineStep p fp u₁ a il) (bugLineStep p fp u₂ b il) := by
  obtain ⟨h1, h2⟩ := h
  simp only [bugLineStep]
  split
  · exact ⟨h1, h2⟩
  · split
    · refine ⟨?_, ?_⟩
      · dsimp only
        rw [List.map_append, List.map_append, h1, h2]
        simp [eraseId]
      · dsimp only
        omega
    · exact ⟨h1, h2⟩

lemma bugPatternStep_rel (fp : String) (lines : List (Nat × String)) (u₁ u₂ : Nat → String)
    (a b : List CodeIssue × Nat) (p : AnalyzerPattern) (h : BugRel a b) :
    BugRel (bugPatternStep fp lines u₁ a p) (bugPatternStep fp lines u₂ b p) := by
  unfold bugPatternStep
  split
  · exact foldl_rel BugRel _ _
      (fun s t il hst => bugLineStep_rel p fp u₁ u₂ s t il hst) lines a b h
  · exact h

/-- The id shape every security finding has: pattern name, file path and line
joined deterministically, with no random component. -/
def SecIdOk (fp : String) (i : CodeIssue) : Prop :=
  ∃ p ∈ SECURITY_PATTERNS, i.id = "sec-" ++ p.name ++ "-" ++ fp ++ ":" ++ toString i.line

lemma secLineStep_ids (p : AnalyzerPattern) (hp : p ∈ SECURITY_PATTERNS) (fp : String)
    (acc : List CodeIssue) (il : Nat × String)
    (h : ∀ i ∈ acc, SecIdOk fp i) :
    ∀ i ∈ secLineStep p fp acc il, SecIdOk fp i := by
  intro i hi
  simp only [secLineStep] at hi
  split at hi
  · exact h i hi
  · split at hi
    · rcases List.mem_append.mp hi with hi | hi
      · exact h i hi
      · rw [List.mem_singleton.mp hi]
        exact ⟨p, hp, rfl⟩
    · exact h i hi

lemma sec_fold_ids (fp : String) (lines : List (Nat × String)) :
    ∀ pats : List AnalyzerPattern, (∀ p ∈ pats, p ∈ SECURITY_PATTERNS) →
      ∀ acc : List CodeIssue, (∀ i ∈ acc, SecIdOk fp i) →
      ∀ i ∈ pats.foldl (secPatternStep fp lines) acc, SecIdOk fp i := by
  intro pats
  induction pats with
  | nil =>
      intro _ acc h i hi
      rw [List.foldl_nil] at hi
      exact h i hi
  | cons p rest ih =>
      intro hsub acc h i hi
      rw [List.foldl_cons] at hi
      refine ih (fun q hq => hsub q (List.mem_cons_of_mem _ hq))
        (secPatternStep fp lines acc p) ?_ i hi
      intro j hj
      unfold secPatternStep at hj
      split at hj
      · exact foldl_inv (fun acc2 => ∀ k ∈ acc2, SecIdOk fp k) (secLineStep p fp)
          (fun acc2 il h2 =>
            secLineStep_ids p (hsub p (List.mem_cons_self _ _)) fp acc2 il h2)
          lines acc h j hj
      · exact h j hj

/-- C9 (amended): each pattern analyzer is a pure function of its explicit
inputs; the bug analyzer's output is determined by (filePath, content) in
every field except the id, whose tail is the per-finding random UUID fragment
(so two invocations do produce identical finding lists modulo ids, but not
identical ids); the security analyzer's ids are built deterministically from
the pattern name, the file path and the line number. -/
theorem analyzer_determinism_claim :
    (∀ (filePath content : String) (u₁ u₂ : Nat → String),
      (analyzeBugIssues filePath content u₁).map eraseId
        = (analyzeBugIssues filePath content u₂).map eraseId) ∧
    (∀ (filePath content : String) (i : CodeIssue),
      i ∈ analyzeSecurityIssues filePath content →
      ∃ p ∈ SECURITY_PATTERNS,
        i.id = "sec-" ++ p.name ++ "-" ++ filePath ++ ":" ++ toString i.line) := by
  constructor
  · intro fp c u₁ u₂
    exact (foldl_rel BugRel (bugPatternStep fp (strSplit c '\n').enum u₁)
      (bugPatternStep fp (strSplit c '\n').enum u₂)
      (fun s t p hst => bugPatternStep_rel fp _ u₁ u₂ s t p hst)
      BUG_PATTERNS ([], 0) ([], 0) ⟨rfl, rfl⟩).1
  · intro fp c i hi
    exact sec_fold_ids fp ((strSplit c '\n').enum) SECURITY_PATTERNS
      (fun p hp => hp) [] (fun j hj => absurd hj (List.not_mem_nil j)) i hi

/-- The security finding the analyzer produces for the line `eval(x)`. -/
def wSecIssue : CodeIssue :=
  { id := "sec-eval-usage-a.ts:1", file := "a.ts", line := 1,
    category := IssueCategory.security, severity := IssueSeverity.warning,
    title := "eval() Usage Detected",
    description := "Using eval() is dangerous as it can execute arbitrary code. Avoid unless absolutely necessary.",
    fix := "Replace with JSON.parse(), Function constructor, or structured alternatives",
    suppressed := false }

theorem analyzer_determinism_claim_witness :
    (analyzeBugIssues ("a.ts") ("debugger;") (fun _ => "aaaaaaaa")).map eraseId
      = (analyzeBugIssues ("a.ts") ("debugger;") (fun _ => "bbbbbbbb")).map eraseId ∧
    (∃ p ∈ SECURITY_PATTERNS,
      wSecIssue.id = "sec-" ++ p.name ++ "-" ++ ("a.ts") ++ ":" ++ toString wSecIssue.line) :=
  ⟨analyzer_determinism_claim.1 ("a.ts") ("debugger;")
      (fun _ => "aaaaaaaa") (fun _ => "bbbbbbbb"),
    analyzer_determinism_claim.2 ("a.ts") ("eval(x)") wSecIssue (by decide)⟩

/-- C9 counterexample: the bug analyzer, run twice on the same file and
content but with the two different random UUID fragments two real invocations
would draw, returns different finding lists — the ids differ — so the
analyzer is not a deterministic function of (filePath, content) down to ids. -/
theorem analyzer_determinism_counterexample :
    analyzeBugIssues ("a.ts") ("debugger;") (fun _ => "aaaaaaaa")
      ≠ analyzeBugIssues ("a.ts") ("debugger;") (fun _ => "bbbbbbbb") := by decide

end DraftAI
